import Mathlib

/-!
# Verification of the OCR-Bill2Sheet upload/extraction pipeline

Shallow embedding of the core upload ingestion and extraction pipeline of the
OCR-Bill2Sheet backend (Rust, axum).  The embedding follows the source files:

* `src/backend/src/services/image_validation.rs` — per-file validation;
* `src/backend/src/api/ocr.rs` — the SSE upload endpoint, the session
  orchestrator `process_upload_with_events`, `validate_file`,
  `process_with_gemini`, `map_error_to_code`, and the legacy handler
  `upload_images`;
* `src/backend/src/models/sse_events.rs` — the event model;
* `src/backend/src/services/bill_extractor.rs` — number/date parsing and
  post-extraction validation;
* `src/backend/src/services/gemini_service.rs` — the response-parsing layer
  and its warning-producing validation;
* `src/backend/src/state.rs` / `main.rs` — the process-wide broadcast channel.

Modelling conventions: byte buffers are abstracted to the properties the
external crates (`infer`, `image`) observe about them; wall-clock timestamps
and durations carried by events are irrelevant to every property below and are
dropped (durations are fixed to 0); `rust_decimal::Decimal` is modelled as
`ℚ`; `chrono::NaiveDate` as a civil-calendar triple with its day ordinal;
the ambient clock `Utc::now()` is passed in explicitly as `today`.
-/

namespace OCRBill

/-- Observable properties of one raw byte buffer, as seen through the external
crates used by `image_validation.rs`: its length, the MIME type that
`infer::get` sniffs from its magic bytes (`none` when the format is not
recognised), and whether `image::load_from_memory` fully decodes it. -/
structure ByteStream where
  len : Nat
  sniffMime : Option String
  decodesOk : Bool
deriving Repr, DecidableEq

/-- `UploadError` from `src/backend/src/errors/upload_error.rs`. -/
inductive UploadError where
  | fileSizeExceeded (size limit : Nat)
  | imageCountExceeded (count limit : Nat)
  | invalidImageFormat (format : String)
  | multipartError (msg : String)
deriving Repr, DecidableEq

/-- The `thiserror` display strings of `UploadError` (used for
`error.to_string()` in the event payloads). -/
def UploadError.toMessage : UploadError → String
  | .fileSizeExceeded size limit =>
      "File size " ++ toString size ++ " exceeds limit " ++ toString limit
  | .imageCountExceeded count limit =>
      "Image count " ++ toString count ++ " exceeds limit " ++ toString limit
  | .invalidImageFormat f => "Invalid image format: " ++ f
  | .multipartError m => "Multipart parsing failed: " ++ m

/-! ## Character-list string helpers (Rust `str` operations; kept
kernel-computable by working on `List Char`) -/

/-- Rust-style `char` whitespace test (ASCII fragment; `str::trim` uses
Unicode whitespace, of which only the ASCII part occurs in this code base). -/
def isWhitespaceChar (c : Char) : Bool :=
  c = ' ' || c = '\t' || c = '\n' || c = '\r'

/-- `str::trim`. -/
def trimChars (cs : List Char) : List Char :=
  ((cs.dropWhile isWhitespaceChar).reverse.dropWhile isWhitespaceChar).reverse

/-- `String::replace(c, "")` for a single-character pattern. -/
def removeChar (c : Char) (cs : List Char) : List Char :=
  cs.filter (fun x => x ≠ c)

/-- `String::replace("VND", "")`: remove every occurrence of `VND`. -/
def removeVND : List Char → List Char
  | 'V' :: 'N' :: 'D' :: rest => removeVND rest
  | c :: rest => c :: removeVND rest
  | [] => []

/-- `String::replace(a, b)` for single characters. -/
def replaceChar (a b : Char) (cs : List Char) : List Char :=
  cs.map (fun x => if x = a then b else x)

/-- `str::matches(c).count()`. -/
def countChar (c : Char) (cs : List Char) : Nat :=
  cs.count c

/-- `str::split(sep)` for a character separator: Rust yields `n+1` parts for
`n` separators (the empty string yields one empty part). -/
def splitOnChar (sep : Char) : List Char → List (List Char)
  | [] => [[]]
  | c :: cs =>
      let r := splitOnChar sep cs
      if c = sep then [] :: r
      else
        match r with
        | [] => [[c]]
        | h :: t => (c :: h) :: t

/-- Value of a nonempty all-digit run. -/
def digitsToNat (cs : List Char) : Option Nat :=
  if cs ≠ [] ∧ cs.all (·.isDigit) then
    some (cs.foldl (fun acc c => 10 * acc + (c.toNat - '0'.toNat)) 0)
  else none

/-- `str::starts_with`. -/
def starts_with (s pre : String) : Bool :=
  pre.data.isPrefixOf s.data

/-- `validate_file_size` from `image_validation.rs`: reject when
`size > limit`. -/
def validate_file_size (size limit : Nat) : Except UploadError Unit :=
  if size > limit then .error (.fileSizeExceeded size limit) else .ok ()

/-- `validate_image_format` from `image_validation.rs`: magic-byte sniff via
`infer::get` (unknown format ⇒ `InvalidImageFormat "Unknown format"`), then
the sniffed MIME type must start with `image/` (else
`InvalidImageFormat "Not an image"`), then the bytes must fully decode via
`image::load_from_memory` (else `InvalidImageFormat "Corrupted image"`).
Returns the sniffed MIME type on success. -/
def validate_image_format (data : ByteStream) : Except UploadError String :=
  match data.sniffMime with
  | none => .error (.invalidImageFormat "Unknown format")
  | some mime =>
      if ¬ starts_with mime "image/" then
        .error (.invalidImageFormat "Not an image")
      else if data.decodesOk then .ok mime
      else .error (.invalidImageFormat "Corrupted image")

/-- `UploadConfig` from `src/backend/src/config/upload_config.rs`. -/
structure UploadConfig where
  max_file_size_bytes : Nat
  max_image_count : Nat
deriving Repr, DecidableEq

/-- `ValidationStatus` from `src/backend/src/models/image_info.rs`. -/
inductive ValidationStatus where
  | pending
  | valid
  | invalid
deriving Repr, DecidableEq

/-- `ImageFileInfo` from `src/backend/src/models/image_info.rs`
(`processed_at` timestamp dropped; `processing_duration_ms` fixed to 0). -/
structure ImageFileInfo where
  file_name : Option String
  content_type : String
  size_bytes : Nat
  format : String
  validation_status : ValidationStatus
  file_index : Nat
  processing_duration_ms : Nat
deriving Repr, DecidableEq

/-- The `format` field computation in `ocr.rs::validate_file`:
`content_type.split('/').nth(1).unwrap_or("unknown").to_uppercase()`. -/
def formatFromContentType (content_type : String) : String :=
  String.mk
    ((((splitOnChar '/' content_type.data).drop 1).headD "unknown".data).map
      Char.toUpper)

/-- `validate_file` from `src/backend/src/api/ocr.rs` (lines 232-258):
size check first, then format sniff/decode, then build the
`ImageFileInfo` (its `file_name` is left `None` by the source). -/
def validate_file (data : ByteStream) (config : UploadConfig)
    (file_index : Nat) : Except UploadError ImageFileInfo := do
  validate_file_size data.len config.max_file_size_bytes
  let content_type ← validate_image_format data
  .ok { file_name := none
        content_type := content_type
        size_bytes := data.len
        format := formatFromContentType content_type
        validation_status := .valid
        file_index := file_index
        processing_duration_ms := 0 }

/-- `ValidationErrorCode` from `src/backend/src/models/sse_events.rs`. -/
inductive ValidationErrorCode where
  | fileSizeExceeded (actual limit : Nat)
  | unsupportedFormat (detected : String)
  | corruptedFile
  | emptyFile
  | countLimitExceeded (count limit : Nat)
deriving Repr, DecidableEq

/-- `map_error_to_code` from `src/backend/src/api/ocr.rs` (lines 403-420). -/
def map_error_to_code : UploadError → ValidationErrorCode
  | .fileSizeExceeded size limit => .fileSizeExceeded size limit
  | .invalidImageFormat format => .unsupportedFormat format
  | .imageCountExceeded count limit => .countLimitExceeded count limit
  | .multipartError _ => .corruptedFile

/-! ## Calendar dates (`chrono::NaiveDate` model) -/

/-- A civil-calendar date, modelling `chrono::NaiveDate`. -/
structure Date where
  year : Int
  month : Nat
  day : Nat
deriving Repr, DecidableEq

/-- Gregorian leap-year test. -/
def Date.isLeapYear (y : Int) : Bool :=
  (y % 4 == 0 && y % 100 != 0) || y % 400 == 0

/-- Number of days in a month of a given year. -/
def Date.daysInMonth (y : Int) (m : Nat) : Nat :=
  if m = 2 then (if Date.isLeapYear y then 29 else 28)
  else if m = 4 ∨ m = 6 ∨ m = 9 ∨ m = 11 then 30 else 31

/-- Calendar validity of a date. -/
def Date.valid (d : Date) : Bool :=
  1 ≤ d.month && d.month ≤ 12 && 1 ≤ d.day && d.day ≤ Date.daysInMonth d.year d.month

/-- Day ordinal of a civil date (days since 1970-01-01, the standard
days-from-civil computation); `chrono::NaiveDate` comparisons and
day-difference arithmetic are modelled through this ordinal. -/
def Date.toDays (d : Date) : Int :=
  let y : Int := if d.month ≤ 2 then d.year - 1 else d.year
  let era : Int := (if 0 ≤ y then y else y - 399) / 400
  let yoe : Int := y - era * 400
  let mp : Int := ((d.month : Int) + 9) % 12
  let doy : Int := (153 * mp + 2) / 5 + (d.day : Int) - 1
  let doe : Int := yoe * 365 + yoe / 4 - yoe / 100 + doy
  era * 146097 + doe - 719468

/-- Chronological strict order on dates (via the day ordinal). -/
def Date.ltD (a b : Date) : Bool := a.toDays < b.toDays

/-! ## `rust_decimal::Decimal` (modelled as `ℚ`) -/

/-- The unsigned part of `Decimal::from_str`: digits with at most one
decimal point, at least one digit in total (`rust_decimal`'s 28-digit
mantissa bound is not modelled — no input in this development reaches it). -/
def decimalCore (cs : List Char) : Option ℚ :=
  match splitOnChar '.' cs with
  | [ip] =>
      (digitsToNat ip).map (fun n => (n : ℚ))
  | [ip, fp] =>
      if (ip ++ fp) ≠ [] ∧ (ip ++ fp).all (·.isDigit) then
        some (((digitsToNat (ip ++ fp)).getD 0 : ℚ) / ((10 : ℚ) ^ fp.length))
      else none
  | _ => none

/-- `rust_decimal::Decimal::from_str`, modelled into `ℚ`: optional sign,
then digits with at most one decimal point. -/
def decimal_from_str (s : String) : Option ℚ :=
  match s.data with
  | [] => none
  | c :: rest =>
      if c = '-' then (decimalCore rest).map (fun q => -q)
      else if c = '+' then decimalCore rest
      else decimalCore (c :: rest)

/-! ## `BillDataExtractor` (`src/backend/src/services/bill_extractor.rs`) -/

/-- `ExtractionError` from `bill_extractor.rs`. -/
inductive ExtractionError where
  | dateParseError (msg : String)
  | numberParseError (msg : String)
  | missingEssentialData (msg : String)
  | invalidFormat (msg : String)
deriving Repr, DecidableEq

/-- One `chrono` numeric date field: 1-2 digits for `%d`/`%m`. -/
def parseField2 (cs : List Char) : Option Nat :=
  if cs.length = 1 ∨ cs.length = 2 then digitsToNat cs else none

/-- `%Y`: a four-digit year. -/
def parseYear4 (cs : List Char) : Option Int :=
  if cs.length = 4 then (digitsToNat cs).map (fun n => (n : Int)) else none

/-- `%y`: a two-digit year; `chrono` maps 00-68 to 2000-2068 and 69-99 to
1969-1999. -/
def parseYear2 (cs : List Char) : Option Int :=
  if cs.length = 2 then
    (digitsToNat cs).map (fun n => if n ≤ 68 then (2000 + n : Int) else (1900 + n : Int))
  else none

/-- Whether a two-digit year (`%y`) is requested. -/
inductive YearStyle where
  | y4
  | y2
deriving Repr, DecidableEq

/-- Parse `day sep month sep year` (`%d`, `%m`, then `%Y` or `%y`),
requiring the whole string to be consumed and the date to be a valid
calendar date, as `NaiveDate::parse_from_str` does. -/
def parseDMY (sep : Char) (style : YearStyle) (cs : List Char) : Option Date :=
  match splitOnChar sep cs with
  | [d, m, y] => do
      let dn ← parseField2 d
      let mn ← parseField2 m
      let yn ← match style with
        | .y4 => parseYear4 y
        | .y2 => parseYear2 y
      let date : Date := ⟨yn, mn, dn⟩
      if date.valid then some date else none
  | _ => none

/-- Parse `%Y-%m-%d` (ISO). -/
def parseYMD (cs : List Char) : Option Date :=
  match splitOnChar '-' cs with
  | [y, m, d] => do
      let yn ← parseYear4 y
      let mn ← parseField2 m
      let dn ← parseField2 d
      let date : Date := ⟨yn, mn, dn⟩
      if date.valid then some date else none
  | _ => none

/-- `parse_vietnamese_date` from `bill_extractor.rs` (lines 97-120): trim,
then try `%d/%m/%Y`, `%d-%m-%Y`, `%d.%m.%Y`, `%Y-%m-%d`, `%d/%m/%y`,
`%d-%m-%y` in order; first match wins. -/
def parse_vietnamese_date (date_str : String) : Except ExtractionError Date :=
  let cleaned := trimChars date_str.data
  match parseDMY '/' .y4 cleaned with
  | some d => .ok d
  | none =>
  match parseDMY '-' .y4 cleaned with
  | some d => .ok d
  | none =>
  match parseDMY '.' .y4 cleaned with
  | some d => .ok d
  | none =>
  match parseYMD cleaned with
  | some d => .ok d
  | none =>
  match parseDMY '/' .y2 cleaned with
  | some d => .ok d
  | none =>
  match parseDMY '-' .y2 cleaned with
  | some d => .ok d
  | none => .error (.dateParseError ("Unable to parse date: " ++ date_str))

/-- The cleaning stage of `parse_vietnamese_amount`: trim, then strip the
dong symbols, the `VND` currency code and spaces (in the source's order). -/
def clean_amount_chars (amount_str : String) : List Char :=
  removeChar ' ' (removeVND (removeChar '₫' (trimChars amount_str.data))
    |> removeChar 'đ')

/-- `parse_vietnamese_amount` from `bill_extractor.rs` (lines 128-162):
trim, strip the dong symbols / `VND` / spaces, then normalise: if the string
has more than one `.` or both `.` and `,`, the dots are thousands separators
(with a single comma-part split supplying the decimal part); if only `,` is
present it becomes the decimal point; otherwise parse as-is. -/
def parse_vietnamese_amount (amount_str : String) : Except ExtractionError ℚ :=
  let cleaned := clean_amount_chars amount_str
  let normalized :=
    if countChar '.' cleaned > 1 ∨ (cleaned.contains '.' ∧ cleaned.contains ',') then
      match splitOnChar ',' cleaned with
      | [p1, p2] => (removeChar '.' p1) ++ '.' :: p2
      | _ => removeChar '.' cleaned
    else if cleaned.contains ',' ∧ ¬ cleaned.contains '.' then
      replaceChar ',' '.' cleaned
    else cleaned
  match decimal_from_str (String.mk normalized) with
  | some q => .ok q
  | none => .error (.numberParseError ("Unable to parse amount " ++ amount_str))

/-- `parse_vietnamese_percentage` from `bill_extractor.rs` (lines 170-186):
trim, strip `%` and spaces, normalise `,` to `.`, parse as decimal. -/
def parse_vietnamese_percentage (percentage_str : String) : Except ExtractionError ℚ :=
  let cleaned :=
    replaceChar ',' '.' (removeChar ' ' (removeChar '%' (trimChars percentage_str.data)))
  match decimal_from_str (String.mk cleaned) with
  | some q => .ok q
  | none => .error (.numberParseError ("Unable to parse percentage " ++ percentage_str))

/-- Amount normalization as the spec words it (§4.4), for comparison with the
source function: strip currency symbols/spaces; if the string contains both
`.` and `,`, treat `.` as thousands separator and `,` as decimal separator;
if only `,` is present, treat it as the decimal separator; otherwise parse
as-is. -/
def spec_parse_amount (amount_str : String) : Option ℚ :=
  let cleaned := clean_amount_chars amount_str
  let normalized :=
    if cleaned.contains '.' ∧ cleaned.contains ',' then
      match splitOnChar ',' cleaned with
      | [p1, p2] => (removeChar '.' p1) ++ '.' :: p2
      | _ => removeChar '.' cleaned
    else if cleaned.contains ',' then
      replaceChar ',' '.' cleaned
    else cleaned
  decimal_from_str (String.mk normalized)

/-- Decidable equality for `Except` results (not provided by core). -/
instance {ε α : Type} [DecidableEq ε] [DecidableEq α] : DecidableEq (Except ε α) := fun x y =>
  match x, y with
  | .ok a, .ok b =>
      if h : a = b then .isTrue (by rw [h]) else .isFalse (by simp [h])
  | .error a, .error b =>
      if h : a = b then .isTrue (by rw [h]) else .isFalse (by simp [h])
  | .ok _, .error _ => .isFalse (by simp)
  | .error _, .ok _ => .isFalse (by simp)

/-- Modelled from the spec: the struct `models::GeminiResponse` consumed by
`bill_extractor.rs` is code of this repository that is not under `src/`
(only its callers and tests are — `models/mod.rs` does not even re-export
it).  Its field shape is reconstructed from its construction in
`bill_extractor.rs` tests (lines 305-338): string fields, an
`issued_date: Option<String>`, and `f64` numeric fields (modelled as `ℚ`;
IEEE-754 rounding is not modelled). -/
structure GeminiResponse where
  form_no : Option String
  serial_no : Option String
  invoice_no : Option String
  issued_date : Option String
  seller_name : Option String
  seller_tax_code : Option String
  item_name : Option String
  unit : Option String
  quantity : Option ℚ
  unit_price : Option ℚ
  total_amount : Option ℚ
  vat_rate : Option ℚ
  vat_amount : Option ℚ
deriving Repr, DecidableEq

/-- Modelled from the spec: `GeminiResponse::has_essential_data` is not under
`src/`; §4.4 states a response with none of invoice number, seller name,
total amount present carries no usable signal. -/
def GeminiResponse.has_essential_data (r : GeminiResponse) : Bool :=
  r.invoice_no.isSome || r.seller_name.isSome || r.total_amount.isSome

/-- Modelled from the spec: the `get_*_decimal` helpers of `GeminiResponse`
(not under `src/`) convert the `f64` payload to `Decimal`; with both sides
modelled as `ℚ` the conversion is the identity. -/
def GeminiResponse.get_total_amount_decimal (r : GeminiResponse) : Option ℚ := r.total_amount

/-- See `GeminiResponse.get_total_amount_decimal`. -/
def GeminiResponse.get_vat_rate_decimal (r : GeminiResponse) : Option ℚ := r.vat_rate

/-- See `GeminiResponse.get_total_amount_decimal`. -/
def GeminiResponse.get_vat_amount_decimal (r : GeminiResponse) : Option ℚ := r.vat_amount

/-- See `GeminiResponse.get_total_amount_decimal`. -/
def GeminiResponse.get_quantity_decimal (r : GeminiResponse) : Option ℚ := r.quantity

/-- See `GeminiResponse.get_total_amount_decimal`. -/
def GeminiResponse.get_unit_price_decimal (r : GeminiResponse) : Option ℚ := r.unit_price

/-- `CreateBill` from `src/backend/src/models/bill.rs`. -/
structure CreateBill where
  form_no : Option String
  serial_no : Option String
  invoice_no : Option String
  issued_date : Option Date
  seller_name : Option String
  seller_tax_code : Option String
  item_name : Option String
  unit : Option String
  quantity : Option ℚ
  unit_price : Option ℚ
  total_amount : Option ℚ
  vat_rate : Option ℚ
  vat_amount : Option ℚ
deriving Repr, DecidableEq

/-- `BillDataExtractor::extract_bill_data` from `bill_extractor.rs`
(lines 47-88): essential-data gate, date parsing, decimal conversion,
field mapping. -/
def extract_bill_data (r : GeminiResponse) : Except ExtractionError CreateBill := do
  if ¬ r.has_essential_data then
    .error (.missingEssentialData "No essential bill data found in Gemini response")
  else
    let issued_date ← match r.issued_date with
      | some date_str => (parse_vietnamese_date date_str).map some
      | none => .ok none
    .ok { form_no := r.form_no
          serial_no := r.serial_no
          invoice_no := r.invoice_no
          issued_date := issued_date
          seller_name := r.seller_name
          seller_tax_code := r.seller_tax_code
          item_name := r.item_name
          unit := r.unit
          quantity := r.get_quantity_decimal
          unit_price := r.get_unit_price_decimal
          total_amount := r.get_total_amount_decimal
          vat_rate := r.get_vat_rate_decimal
          vat_amount := r.get_vat_amount_decimal }

/-- `BillDataExtractor::validate_extracted_data` from `bill_extractor.rs`
(lines 194-232): the date must not be in the future, total and VAT amounts
must not be negative, the VAT rate must be in [0,100]; each violation is a
hard `Err`.  `Decimal::is_sign_negative` is modelled as `< 0` and the
ambient clock `Utc::now()` is the `today` parameter. -/
def validate_extracted_data (today : Date) (bill : CreateBill) :
    Except ExtractionError Unit := do
  match bill.issued_date with
  | some date =>
      if today.ltD date then
        .error (.invalidFormat "Invoice date cannot be in the future")
      else .ok ()
  | none => .ok ()
  match bill.total_amount with
  | some amount =>
      if amount < 0 then
        .error (.invalidFormat "Total amount cannot be negative")
      else .ok ()
  | none => .ok ()
  match bill.vat_amount with
  | some amount =>
      if amount < 0 then
        .error (.invalidFormat "VAT amount cannot be negative")
      else .ok ()
  | none => .ok ()
  match bill.vat_rate with
  | some rate =>
      if rate < 0 ∨ rate > 100 then
        .error (.invalidFormat "VAT rate must be between 0 and 100")
      else .ok ()
  | none => .ok ()

/-- `BillDataExtractor::extract_and_validate` from `bill_extractor.rs`
(lines 237-244): extraction followed by (hard) validation. -/
def extract_and_validate (today : Date) (r : GeminiResponse) :
    Except ExtractionError CreateBill := do
  let bill ← extract_bill_data r
  validate_extracted_data today bill
  .ok bill

/-! ## The `GeminiService` response-parsing layer
(`src/backend/src/services/gemini_service.rs` and
`src/backend/src/models/gemini_response.rs`) -/

/-- `BillData` from `models/gemini_response.rs` (lines 42-70). -/
structure BillData where
  form_no : Option String
  invoice_no : Option String
  tax_code : Option String
  company_name : Option String
  company_address : Option String
  buyer_name : Option String
  buyer_address : Option String
  issue_date : Option Date
  total_amount : Option ℚ
  tax_amount : Option ℚ
  tax_rate : Option ℚ
  payment_method : Option String
  notes : Option String
deriving Repr, DecidableEq

/-- `BillData::default()`. -/
def BillData.default : BillData :=
  { form_no := none, invoice_no := none, tax_code := none, company_name := none
    company_address := none, buyer_name := none, buyer_address := none
    issue_date := none, total_amount := none, tax_amount := none
    tax_rate := none, payment_method := none, notes := none }

/-- `GeminiService::validate_extracted_data` from `gemini_service.rs`
(lines 748-811), returned as the accumulated error list (empty ⇔ `Ok`):
issue date not in the future and not older than 10 years
(`today - Duration::days(10 * 365)`), total/tax amounts non-negative,
tax rate in [0,100], the VAT cross-check
`|total * rate / 100 - tax| ≤ 0.01`, and the 10-digit tax-code format. -/
def gs_validate_extracted_data (today : Date) (bill_data : BillData) : List String :=
  let dateErrs :=
    match bill_data.issue_date with
    | some issue_date =>
        (if today.ltD issue_date then ["Issue date cannot be in the future"] else [])
          ++ (if issue_date.toDays < today.toDays - (10 * 365 : Int) then
                ["Issue date is older than 10 years"] else [])
    | none => []
  let totalErrs :=
    match bill_data.total_amount with
    | some total_amount =>
        if total_amount < 0 then ["Total amount cannot be negative"] else []
    | none => []
  let taxErrs :=
    match bill_data.tax_amount with
    | some tax_amount =>
        if tax_amount < 0 then ["Tax amount cannot be negative"] else []
    | none => []
  let rateErrs :=
    match bill_data.tax_rate with
    | some tax_rate =>
        if tax_rate < 0 ∨ tax_rate > 100 then
          ["Tax rate must be between 0 and 100 percent"] else []
    | none => []
  let consistencyErrs :=
    match bill_data.total_amount, bill_data.tax_rate, bill_data.tax_amount with
    | some total, some rate, some tax =>
        let expected_tax := total * rate / 100
        let tolerance : ℚ := 1 / 100
        if |expected_tax - tax| > tolerance then
          ["Tax calculation inconsistency"] else []
    | _, _, _ => []
  let taxCodeErrs :=
    match bill_data.tax_code with
    | some tax_code =>
        if tax_code ≠ "" ∧
            (tax_code.length ≠ 10 ∨ ¬ tax_code.data.all (·.isDigit)) then
          ["Vietnamese tax code should be 10 digits"] else []
    | none => []
  dateErrs ++ totalErrs ++ taxErrs ++ rateErrs ++ consistencyErrs ++ taxCodeErrs

/-- `ErrorType` from `models/gemini_response.rs`. -/
inductive GeminiErrorType where
  | configurationError
  | validationError
  | apiError
  | timeoutError
  | networkError
  | parseError
deriving Repr, DecidableEq

/-- `ProcessingError` from `models/gemini_response.rs` (lines 107-117). -/
structure GSProcessingError where
  error_type : GeminiErrorType
  message : String
  image_index : Option Nat
  retry_after_seconds : Option Nat
deriving Repr, DecidableEq

/-- `ProcessingError::new`. -/
def GSProcessingError.mk3 (error_type : GeminiErrorType) (message : String)
    (image_index : Option Nat) : GSProcessingError :=
  { error_type := error_type, message := message, image_index := image_index
    retry_after_seconds := none }

/-- `BillExtractionResult` from `models/gemini_response.rs` (confidence
scores and wall-clock timing dropped — they are `f32`/clock data that no
claim depends on). -/
structure BillExtractionResult where
  image_index : Nat
  extracted_data : BillData
deriving Repr, DecidableEq

/-- `ProcessingSummary` from `models/gemini_response.rs` (timing and the
`f32` average-confidence field dropped). -/
structure GSProcessingSummary where
  total_images : Nat
  successful_extractions : Nat
  failed_extractions : Nat
deriving Repr, DecidableEq

/-- `GeminiOCRResponse` from `models/gemini_response.rs`. -/
structure GeminiOCRResponse where
  results : List BillExtractionResult
  processing_summary : GSProcessingSummary
  errors : List GSProcessingError
deriving Repr, DecidableEq

/-- `GeminiOCRResponse::new` / `with_capacity`. -/
def GeminiOCRResponse.empty : GeminiOCRResponse :=
  { results := [], processing_summary := ⟨0, 0, 0⟩, errors := [] }

/-- `GeminiOCRResponse::add_result` (lines 189-198): pushes the result and
bumps the totals. -/
def GeminiOCRResponse.add_result (resp : GeminiOCRResponse)
    (result : BillExtractionResult) : GeminiOCRResponse :=
  { resp with
    results := resp.results ++ [result]
    processing_summary :=
      { resp.processing_summary with
        total_images := resp.processing_summary.total_images + 1
        successful_extractions := resp.processing_summary.successful_extractions + 1 } }

/-- `GeminiOCRResponse::add_error` (lines 201-206): pushes the error and
bumps `failed_extractions` when it is image-indexed. -/
def GeminiOCRResponse.add_error (resp : GeminiOCRResponse)
    (e : GSProcessingError) : GeminiOCRResponse :=
  { resp with
    errors := resp.errors ++ [e]
    processing_summary :=
      if e.image_index.isSome then
        { resp.processing_summary with
          failed_extractions := resp.processing_summary.failed_extractions + 1 }
      else resp.processing_summary }

/-- The tail of `GeminiService::parse_gemini_response` (`gemini_service.rs`
lines 432-464), starting from the already-extracted `bill_data`: run
`validate_extracted_data`, append every validation error as a warning-style
`ValidationError` entry (processing continues), then add the extraction
result. -/
def parse_gemini_finish (today : Date) (bill_data : BillData) : GeminiOCRResponse :=
  let validation_errors := gs_validate_extracted_data today bill_data
  let resp :=
    validation_errors.foldl
      (fun resp e =>
        resp.add_error
          (GSProcessingError.mk3 .validationError
            ("Data validation warning: " ++ e) (some 0)))
      GeminiOCRResponse.empty
  resp.add_result { image_index := 0, extracted_data := bill_data }

/-! ## The event model (`src/backend/src/models/sse_events.rs`) and the
session orchestrator (`src/backend/src/api/ocr.rs`) -/

/-- `ProcessingErrorType` from `sse_events.rs`. -/
inductive ProcessingErrorType where
  | multipartParsingError
  | systemTimeout
  | internalServerError
  | clientDisconnected
deriving Repr, DecidableEq

/-- `ProcessingEvent` from `sse_events.rs` (timestamps dropped;
`duration_ms` fields fixed to 0). -/
inductive ProcessingEvent where
  | uploadStarted (total_files : Nat) (session_id : String)
  | imageReceived (file_index : Nat) (file_name : Option String) (size_bytes : Nat)
  | imageValidationStart (file_index : Nat) (file_name : Option String)
  | imageValidationSuccess (file_index : Nat) (file_info : ImageFileInfo)
  | imageValidationError (file_index : Nat) (file_name : Option String)
      (error_message : String) (error_code : ValidationErrorCode)
  | allImagesValidated (total_processed successful_count failed_count : Nat)
  | processingComplete (session_id : String) (total_files successful_files duration_ms : Nat)
  | processingError (session_id : String) (error_message : String)
      (error_type : ProcessingErrorType)
  | geminiProcessingStart (file_index : Nat) (file_name : Option String)
  | geminiProcessingSuccess (file_index : Nat) (extracted_data : List GeminiResponse)
  | geminiProcessingError (file_index : Nat) (error_message : String)
  | billDataSaved (file_index : Nat) (bill_id : Int)
deriving Repr, DecidableEq

/-- The SSE event-type tags (`ocr.rs` lines 61-74). -/
def ProcessingEvent.tag : ProcessingEvent → String
  | .uploadStarted .. => "upload_started"
  | .imageReceived .. => "image_received"
  | .imageValidationStart .. => "image_validation_start"
  | .imageValidationSuccess .. => "image_validation_success"
  | .imageValidationError .. => "image_validation_error"
  | .allImagesValidated .. => "all_images_validated"
  | .processingComplete .. => "processing_complete"
  | .processingError .. => "processing_error"
  | .geminiProcessingStart .. => "gemini_processing_start"
  | .geminiProcessingSuccess .. => "gemini_processing_success"
  | .geminiProcessingError .. => "gemini_processing_error"
  | .billDataSaved .. => "bill_data_saved"

/-- The terminal events, on which the SSE stream loop breaks
(`ocr.rs` line 80). -/
def ProcessingEvent.isTerminal : ProcessingEvent → Bool
  | .processingComplete .. => true
  | .processingError .. => true
  | _ => false

/-- The `ExtractionError` display strings (`thiserror` in
`bill_extractor.rs`). -/
def ExtractionError.toMessage : ExtractionError → String
  | .dateParseError m => "Date parsing error: " ++ m
  | .numberParseError m => "Number parsing error: " ++ m
  | .missingEssentialData m => "Missing essential data: " ++ m
  | .invalidFormat m => "Invalid data format: " ++ m

/-- Outcome of the external call
`gemini_service.extract_bill_data(image_data)` matched in
`process_with_gemini` (`ocr.rs` lines 293-344).  The `GeminiError`-returning
client itself (`with_default_config`, the HTTP retry loop) is repository
code that is not under `src/`; its per-call outcome is therefore an oracle
input to the pipeline. -/
inductive GeminiCallResult where
  | ok (candidates : List GeminiResponse)
  | rateLimitExceeded (retry_after : Option Nat)
  | authenticationFailed
  | timeout (seconds : Nat)
  | apiError (status : Nat) (message : String)
  | otherError (message : String)
deriving Repr, DecidableEq

/-- The external-world outcomes consumed while processing one file:
service-construction failure, the extraction-call outcome, and the database
outcome of `create_bill` for each candidate index (`none` = insert failed,
which is logged and skipped). -/
structure GeminiEnv where
  initError : Option String
  call : GeminiCallResult
  save : List (Option Int)
deriving Repr, DecidableEq

/-- Rust `{:?}` rendering of the `Option<u64>` retry-after value. -/
def optRetryAfterDebug : Option Nat → String
  | some s => "Some(" ++ toString s ++ ")"
  | none => "None"

/-- The candidate loop of `process_with_gemini` (`ocr.rs` lines 360-398):
for each Gemini candidate run `extract_and_validate` (a failure is mapped to
`UploadError::MultipartError` and aborts the whole call via `?`), then
`create_bill`; a successful insert emits `BillDataSaved`, a failed insert is
only logged. -/
def save_candidates (today : Date) (file_index : Nat) (saves : List (Option Int)) :
    Nat → List GeminiResponse → List ProcessingEvent × Except String Unit
  | _, [] => ([], .ok ())
  | candidate_idx, r :: rest =>
      match extract_and_validate today r with
      | .error e =>
          ([], .error
            (UploadError.toMessage
              (.multipartError ("Data extraction error: " ++ e.toMessage))))
      | .ok _bill =>
          match saves.getD candidate_idx none with
          | some bill_id =>
              (ProcessingEvent.billDataSaved file_index bill_id ::
                 (save_candidates today file_index saves (candidate_idx + 1) rest).1,
               (save_candidates today file_index saves (candidate_idx + 1) rest).2)
          | none => save_candidates today file_index saves (candidate_idx + 1) rest

/-- `process_with_gemini` from `ocr.rs` (lines 265-401): emit
`GeminiProcessingStart`; a service-construction failure returns `Err` with
no further event; a failed extraction call emits `GeminiProcessingError`
with the matching message and returns `Err`; a successful call emits
`GeminiProcessingSuccess` and runs the candidate loop.  The `Err` payload is
the boxed error's display string, as the caller observes it.
(`resize_image_default` is event-free, best-effort, and only feeds the
already-abstracted external call, so it does not appear.) -/
def process_with_gemini (today : Date) (file_index : Nat) (file_name : Option String)
    (env : GeminiEnv) : List ProcessingEvent × Except String Unit :=
  let startEvt := [ProcessingEvent.geminiProcessingStart file_index file_name]
  match env.initError with
  | some e => (startEvt, .error ("Failed to initialize Gemini service: " ++ e))
  | none =>
    match env.call with
    | .rateLimitExceeded retry_after =>
        let msg := "Gemini API rate limit exceeded. Retry after: " ++
          optRetryAfterDebug retry_after ++ " seconds"
        (startEvt ++ [.geminiProcessingError file_index msg],
         .error (UploadError.toMessage (.multipartError msg)))
    | .authenticationFailed =>
        let msg := "Gemini API authentication failed. Please check your API key."
        (startEvt ++ [.geminiProcessingError file_index msg],
         .error (UploadError.toMessage (.multipartError msg)))
    | .timeout seconds =>
        let msg := "Gemini API request timeout after " ++ toString seconds ++ " seconds"
        (startEvt ++ [.geminiProcessingError file_index msg],
         .error (UploadError.toMessage (.multipartError msg)))
    | .apiError status message =>
        let msg := "Gemini API error " ++ toString status ++ ": " ++ message
        (startEvt ++ [.geminiProcessingError file_index msg],
         .error (UploadError.toMessage (.multipartError msg)))
    | .otherError e =>
        let msg := "Gemini processing failed: " ++ e
        (startEvt ++ [.geminiProcessingError file_index msg],
         .error (UploadError.toMessage (.multipartError msg)))
    | .ok candidates =>
        (startEvt ++ [.geminiProcessingSuccess file_index candidates] ++
           (save_candidates today file_index env.save 0 candidates).1,
         (save_candidates today file_index env.save 0 candidates).2)

/-- One collected file of the ingestion loop (the `(file_name, data)` pair
pushed by `process_upload_with_events`, together with the external-world
oracle consumed when the file is processed). -/
structure StoredFile where
  file_name : Option String
  data : ByteStream
  gemini : GeminiEnv
deriving Repr, DecidableEq

/-- One multipart field of the incoming request. -/
structure UploadPart where
  name : String
  file_name : Option String
  data : ByteStream
  gemini : GeminiEnv
deriving Repr, DecidableEq

/-- Forget the field name of an accepted part. -/
def UploadPart.toStored (p : UploadPart) : StoredFile :=
  { file_name := p.file_name, data := p.data, gemini := p.gemini }

/-- The per-file body of the loop in `process_upload_with_events`
(`ocr.rs` lines 132-209): `ImageReceived`, `ImageValidationStart`, then on
validation success `ImageValidationSuccess` and the Gemini phase (whose
failure emits `GeminiProcessingError` but still counts the file as
successful), and on validation failure `ImageValidationError`.  Returns the
emitted events and the increment of `successful_files` (1 or 0). -/
def process_one_file (config : UploadConfig) (today : Date) (file_index : Nat)
    (f : StoredFile) : List ProcessingEvent × Nat :=
  let received : List ProcessingEvent :=
    [.imageReceived file_index f.file_name f.data.len,
     .imageValidationStart file_index f.file_name]
  match validate_file f.data config file_index with
  | .ok file_info =>
      match (process_with_gemini today file_index f.file_name f.gemini).2 with
      | .ok _ =>
          (received ++ [.imageValidationSuccess file_index file_info] ++
             (process_with_gemini today file_index f.file_name f.gemini).1, 1)
      | .error e =>
          (received ++ [.imageValidationSuccess file_index file_info] ++
             (process_with_gemini today file_index f.file_name f.gemini).1 ++
           [.geminiProcessingError file_index ("Gemini processing failed: " ++ e)], 1)
  | .error err =>
      (received ++
       [.imageValidationError file_index f.file_name err.toMessage
         (map_error_to_code err)], 0)

/-- The indexed fold of `process_one_file` over the collected files. -/
def run_files (config : UploadConfig) (today : Date) :
    Nat → List StoredFile → List ProcessingEvent × Nat
  | _, [] => ([], 0)
  | file_index, f :: rest =>
      ((process_one_file config today file_index f).1 ++
         (run_files config today (file_index + 1) rest).1,
       (process_one_file config today file_index f).2 +
         (run_files config today (file_index + 1) rest).2)

/-- One step of reading the multipart stream: either a parsed field or a
transport failure (`next_field()` / `bytes()` erroring). -/
inductive MultipartItem where
  | part (p : UploadPart)
  | fieldError (msg : String)
deriving Repr, DecidableEq

/-- The collection loop of `process_upload_with_events` (`ocr.rs` lines
101-115): walk the multipart stream, keep the fields named `images`, fail
with `MultipartError` on a transport error; no event is published during
collection. -/
def collect_files : List MultipartItem → Except UploadError (List StoredFile)
  | [] => .ok []
  | .fieldError m :: _ => .error (.multipartError m)
  | .part p :: rest => do
      let fs ← collect_files rest
      if p.name = "images" then .ok (p.toStored :: fs) else .ok fs

/-- `process_upload_with_events` from `ocr.rs` (lines 90-230): collect the
files (a transport failure or an empty batch returns `Err` before any event
is published), then `UploadStarted`, the per-file loop, and the
`AllImagesValidated` / `ProcessingComplete` tail. -/
def process_upload_with_events (config : UploadConfig) (today : Date)
    (session_id : String) (items : List MultipartItem) :
    List ProcessingEvent × Except UploadError Unit :=
  match collect_files items with
  | .error e => ([], .error e)
  | .ok files =>
      if files.isEmpty then ([], .error (.multipartError "No images provided"))
      else
        ([.uploadStarted files.length session_id] ++
           (run_files config today 0 files).1 ++
         [.allImagesValidated files.length (run_files config today 0 files).2
            (files.length - (run_files config today 0 files).2),
          .processingComplete session_id files.length
            (run_files config today 0 files).2 0],
         .ok ())

/-- The full event sequence published for one session: the spawned task in
`upload_images_sse` (`ocr.rs` lines 38-54) runs
`process_upload_with_events` and publishes a `ProcessingError` with
`InternalServerError` type whenever it returns `Err`. -/
def session_trace (config : UploadConfig) (today : Date) (session_id : String)
    (items : List MultipartItem) : List ProcessingEvent :=
  match (process_upload_with_events config today session_id items).2 with
  | .ok _ => (process_upload_with_events config today session_id items).1
  | .error e =>
      (process_upload_with_events config today session_id items).1 ++
        [.processingError session_id e.toMessage .internalServerError]

/-- The SSE response stream (`ocr.rs` lines 58-85): forward each received
event and break immediately after a terminal one.  A subscriber receives
the events published after its subscription point, so the stream delivered
to a subscriber attached after `k` events is
`sse_stream (published.drop k)`. -/
def sse_stream : List ProcessingEvent → List ProcessingEvent
  | [] => []
  | e :: rest => if e.isTerminal then [e] else e :: sse_stream rest

/-- The collection loop of the legacy handler `upload_images` (`ocr.rs`
lines 432-475), carrying the running `image_count`: a field named `images`
bumps the count, is rejected with `ImageCountExceeded` as soon as the count
exceeds the configured maximum, and is otherwise validated (size, then
format) and accepted. -/
def upload_images_loop (config : UploadConfig) :
    Nat → List MultipartItem → Except UploadError (List ImageFileInfo)
  | _, .fieldError m :: _ => .error (.multipartError m)
  | image_count, [] =>
      if image_count = 0 then .error (.multipartError "No images provided")
      else .ok []
  | image_count, .part p :: rest =>
      if p.name = "images" then
        let image_count := image_count + 1
        if image_count > config.max_image_count then
          .error (.imageCountExceeded image_count config.max_image_count)
        else do
          validate_file_size p.data.len config.max_file_size_bytes
          let content_type ← validate_image_format p.data
          let info : ImageFileInfo :=
            { file_name := p.file_name
              content_type := content_type
              size_bytes := p.data.len
              format := formatFromContentType content_type
              validation_status := .valid
              file_index := image_count - 1
              processing_duration_ms := 0 }
          (upload_images_loop config image_count rest).map (info :: ·)
      else upload_images_loop config image_count rest

/-- The legacy (non-streaming) handler `upload_images` from `ocr.rs`
(lines 423-487).  It is kept for backward compatibility and is not mounted
by `main.rs`, which routes `/api/ocr` to `upload_images_sse`. -/
def upload_images (config : UploadConfig) (items : List MultipartItem) :
    Except UploadError (List ImageFileInfo) :=
  upload_images_loop config 0 items

/-- Whether an event is the session-start event. -/
def ProcessingEvent.isUploadStarted : ProcessingEvent → Bool
  | .uploadStarted .. => true
  | _ => false

/-- Whether an event is a per-file extraction-failure report. -/
def ProcessingEvent.isGeminiErrorFor (file_index : Nat) : ProcessingEvent → Bool
  | .geminiProcessingError i _ => i = file_index
  | _ => false

/-- Whether an event carries the `CountLimitExceeded` validation code. -/
def ProcessingEvent.carriesCountLimitCode : ProcessingEvent → Bool
  | .imageValidationError _ _ _ (.countLimitExceeded _ _) => true
  | _ => false

/-- Whether `validate_file` accepts a byte buffer (the acceptance does not
depend on the file index, which is only copied into the returned
`ImageFileInfo`). -/
def validation_passes (config : UploadConfig) (data : ByteStream) : Bool :=
  match validate_file data config 0 with
  | .ok _ => true
  | .error _ => false

/-- Whether an event is neither terminal nor the session-start event and
carries no `CountLimitExceeded` code: every event emitted by the per-file
loop is of this kind. -/
def ProcessingEvent.midEvent (e : ProcessingEvent) : Bool :=
  !e.isTerminal && !e.isUploadStarted && !e.carriesCountLimitCode

/-- Whether the Gemini phase of one file fails (its result is `Err`,
making the orchestrator emit the extra `GeminiProcessingError`). -/
def gemini_phase_fails (today : Date) (file_index : Nat) (f : StoredFile) : Bool :=
  match (process_with_gemini today file_index f.file_name f.gemini).2 with
  | .ok _ => false
  | .error _ => true

/-! ## The retry-aware extraction client

Modelled from the spec: the `GeminiService` actually driving the pipeline
(`with_default_config`, `extract_bill_data(&[u8])`, `GeminiError`, and the
`process_single_image` retry wrapper invoked by `process_images`) is code of
this repository that is not under `src/` — `ocr.rs` imports it and
`gemini_service.rs` calls `process_single_image`, but no definition exists
in the tree.  The attempt/retry loop below follows spec §4.3: up to N
attempts (default 3) for `RateLimitExceeded`/`ServiceUnavailable`/`Timeout`
only; the delay is the server-declared retry-after when available, otherwise
an exponential base delay capped at a ceiling (default 30 s); authentication
and parse failures fail fast with zero retries. -/

/-- Modelled from the spec: outcome of one HTTP attempt of the extraction
client (§4.3). -/
inductive ApiAttemptOutcome (P : Type) where
  | success (payload : P)
  | rateLimitExceeded (retry_after : Option Nat)
  | serviceUnavailable
  | timeout (seconds : Nat)
  | authenticationFailed
  | parseFailure
deriving Repr, DecidableEq

/-- Modelled from the spec: which failures the client retries (§4.3). -/
def ApiAttemptOutcome.isRetryable {P : Type} : ApiAttemptOutcome P → Bool
  | .rateLimitExceeded _ => true
  | .serviceUnavailable => true
  | .timeout _ => true
  | _ => false

/-- The server-declared retry-after of an outcome, when present. -/
def ApiAttemptOutcome.declaredRetryAfter {P : Type} : ApiAttemptOutcome P → Option Nat
  | .rateLimitExceeded ra => ra
  | _ => none

/-- Modelled from the spec: the client's retry parameters (§4.3 / §6 —
loaded once from configuration, immutable). -/
structure RetryPolicy where
  max_attempts : Nat
  base_delay_seconds : Nat
  max_delay_seconds : Nat
deriving Repr, DecidableEq

/-- The spec defaults: 3 attempts, exponential backoff capped at 30 s. -/
def RetryPolicy.default : RetryPolicy :=
  { max_attempts := 3, base_delay_seconds := 1, max_delay_seconds := 30 }

/-- Modelled from the spec: the delay before re-attempting after the
(0-based) attempt `attempt`: the server-declared retry-after when present,
otherwise the capped exponential backoff. -/
def retry_delay (policy : RetryPolicy) (attempt : Nat) (declared : Option Nat) : Nat :=
  match declared with
  | some s => s
  | none => min (policy.base_delay_seconds * 2 ^ attempt) policy.max_delay_seconds

/-- Modelled from the spec: the attempt loop.  `script` gives the outcome
of each (0-based) attempt; the loop returns the number of attempts made,
the delays slept between attempts, and the success payload if any. -/
def run_attempts {P : Type} (policy : RetryPolicy)
    (script : Nat → ApiAttemptOutcome P) :
    Nat → Nat → Nat × List Nat × Option P
  | attempt, 0 => (attempt, [], none)
  | attempt, remaining + 1 =>
      match script attempt with
      | .success p => (attempt + 1, [], some p)
      | o =>
          if o.isRetryable ∧ remaining > 0 then
            ((run_attempts policy script (attempt + 1) remaining).1,
             retry_delay policy attempt o.declaredRetryAfter ::
               (run_attempts policy script (attempt + 1) remaining).2.1,
             (run_attempts policy script (attempt + 1) remaining).2.2)
          else (attempt + 1, [], none)

/-- Modelled from the spec: one full client call with retries (§4.3). -/
def call_with_retries {P : Type} (policy : RetryPolicy)
    (script : Nat → ApiAttemptOutcome P) : Nat × List Nat × Option P :=
  run_attempts policy script 0 policy.max_attempts

/-! # Theorems -/

set_option allowUnsafeReducibility true

attribute [local semireducible] Rat.mul Rat.inv Rat.add Rat.sub

/-- Consuming a run of non-terminal events followed by a terminal one, the
SSE loop forwards exactly that run and stops at the terminal event,
whatever is published afterwards. -/
lemma sse_stream_of_mid_append {mid : List ProcessingEvent} {e : ProcessingEvent}
    (hmid : ∀ x ∈ mid, x.isTerminal = false) (he : e.isTerminal = true)
    (rest : List ProcessingEvent) :
    sse_stream (mid ++ e :: rest) = mid ++ [e] := by
  induction mid with
  | nil => simp [sse_stream, he]
  | cons a as ih =>
      have ha := hmid a (by simp)
      simp only [List.cons_append, sse_stream, ha]
      simp [ih fun x hx => hmid x (by simp [hx])]

/-- The SSE loop delivers a prefix of the published sequence: events are
never reordered or invented. -/
lemma sse_stream_isPrefixOf (l : List ProcessingEvent) : sse_stream l <+: l := by
  induction l with
  | nil => simp [sse_stream]
  | cons a as ih =>
      by_cases h : a.isTerminal
      · exact ⟨as, by simp [sse_stream, h]⟩
      · obtain ⟨t, ht⟩ := ih
        exact ⟨t, by simp [sse_stream, h, ht]⟩

/-- Every event emitted by the candidate-persistence loop is a mid-session
event. -/
lemma save_candidates_mid (today : Date) (fi : Nat) (saves : List (Option Int)) :
    ∀ (k : Nat) (cands : List GeminiResponse) (e : ProcessingEvent),
      e ∈ (save_candidates today fi saves k cands).1 → e.midEvent = true := by
  intro k cands
  induction cands generalizing k with
  | nil => intro e he; simp [save_candidates] at he
  | cons r rest ih =>
      intro e he
      simp only [save_candidates] at he
      cases hx : extract_and_validate today r with
      | error err => rw [hx] at he; simp at he
      | ok bill =>
          rw [hx] at he
          cases hs : saves.getD k none with
          | some bid =>
              rw [hs] at he
              simp only [List.mem_cons] at he
              rcases he with rfl | h
              · rfl
              · exact ih (k + 1) e h
          | none =>
              rw [hs] at he
              exact ih (k + 1) e he

/-- Every event emitted by the Gemini phase is a mid-session event. -/
lemma process_with_gemini_mid (today : Date) (fi : Nat) (fn : Option String)
    (env : GeminiEnv) :
    ∀ e ∈ (process_with_gemini today fi fn env).1, e.midEvent = true := by
  intro e he
  simp only [process_with_gemini] at he
  cases hi : env.initError with
  | some msg =>
      rw [hi] at he
      simp at he
      subst he; rfl
  | none =>
      rw [hi] at he
      cases hc : env.call <;> rw [hc] at he <;> simp at he
      case ok cands =>
          rcases he with rfl | rfl | h
          · rfl
          · rfl
          · exact save_candidates_mid today fi env.save 0 cands e h
      all_goals (rcases he with rfl | rfl <;> rfl)

/-- `validate_file` only ever fails with `FileSizeExceeded` or
`InvalidImageFormat` — never with `ImageCountExceeded` or
`MultipartError`. -/
lemma validate_image_format_error_shape (data : ByteStream)
    (err : UploadError) (h : validate_image_format data = .error err) :
    ∃ m, err = .invalidImageFormat m := by
  unfold validate_image_format at h
  cases hm : data.sniffMime with
  | none =>
      rw [hm] at h
      simp only [Except.error.injEq] at h
      exact ⟨"Unknown format", h.symm⟩
  | some mime =>
      rw [hm] at h
      by_cases hpre : starts_with mime "image/"
      · cases hd : data.decodesOk with
        | true => simp [hpre, hd] at h
        | false =>
            simp only [hpre, hd, Bool.false_eq_true, if_false, not_true,
              if_neg, Except.error.injEq] at h
            exact ⟨"Corrupted image", h.symm⟩
      · simp only [hpre, Bool.false_eq_true, not_false_iff, if_true,
          Except.error.injEq] at h
        exact ⟨"Not an image", h.symm⟩

/-- `validate_file` only ever fails with `FileSizeExceeded` or
`InvalidImageFormat` — never with `ImageCountExceeded` or
`MultipartError`. -/
lemma validate_file_error_shape (data : ByteStream) (config : UploadConfig)
    (i : Nat) (err : UploadError)
    (h : validate_file data config i = .error err) :
    (∃ s l, err = .fileSizeExceeded s l) ∨
    (∃ m, err = .invalidImageFormat m) := by
  unfold validate_file at h
  by_cases hs : data.len > config.max_file_size_bytes
  · simp only [validate_file_size, hs, if_true, bind, Except.bind,
      Except.error.injEq] at h
    exact Or.inl ⟨_, _, h.symm⟩
  · simp only [validate_file_size, hs, if_false, bind, Except.bind] at h
    cases hf : validate_image_format data with
    | error e2 =>
        rw [hf] at h
        simp only [Except.error.injEq] at h
        subst h
        exact Or.inr (validate_image_format_error_shape data _ hf)
    | ok ct =>
        rw [hf] at h
        simp at h

/-- Every event emitted by the per-file loop body is a mid-session event. -/
lemma process_one_file_mid (config : UploadConfig) (today : Date) (fi : Nat)
    (f : StoredFile) :
    ∀ e ∈ (process_one_file config today fi f).1, e.midEvent = true := by
  intro e he
  simp only [process_one_file] at he
  cases hv : validate_file f.data config fi with
  | ok info =>
      rw [hv] at he
      cases hg : (process_with_gemini today fi f.file_name f.gemini).2 with
      | ok u =>
          rw [hg] at he
          simp at he
          rcases he with rfl | rfl | rfl | h
          · rfl
          · rfl
          · rfl
          · exact process_with_gemini_mid today fi f.file_name f.gemini e h
      | error msg =>
          rw [hg] at he
          simp at he
          rcases he with rfl | rfl | rfl | h | rfl
          · rfl
          · rfl
          · rfl
          · exact process_with_gemini_mid today fi f.file_name f.gemini e h
          · rfl
  | error err =>
      rw [hv] at he
      simp at he
      rcases he with rfl | rfl | rfl
      · rfl
      · rfl
      · rcases validate_file_error_shape f.data config fi err hv with
          ⟨s, l, rfl⟩ | ⟨m, rfl⟩
        · rfl
        · rfl

/-- Every event emitted by the whole per-file loop is a mid-session event. -/
lemma run_files_mid (config : UploadConfig) (today : Date) :
    ∀ (i : Nat) (files : List StoredFile) (e : ProcessingEvent),
      e ∈ (run_files config today i files).1 → e.midEvent = true := by
  intro i files
  induction files generalizing i with
  | nil => intro e he; simp [run_files] at he
  | cons f rest ih =>
      intro e he
      simp only [run_files, List.mem_append] at he
      rcases he with h | h
      · exact process_one_file_mid config today i f e h
      · exact ih (i + 1) e h

/-- `validate_file` at index `i` is the index-0 result with the index
patched into the returned `ImageFileInfo`: acceptance does not depend on
the index. -/
lemma validate_file_eq (data : ByteStream) (config : UploadConfig) (i : Nat) :
    validate_file data config i =
      (validate_file data config 0).map
        (fun info => { info with file_index := i }) := by
  unfold validate_file
  cases hs : validate_file_size data.len config.max_file_size_bytes <;>
    cases hf : validate_image_format data <;>
      simp [hs, hf, Except.map, Except.bind, bind]

/-- One file contributes 1 to `successful_files` exactly when its
validation passes — the Gemini outcome is irrelevant. -/
lemma process_one_file_snd (config : UploadConfig) (today : Date) (fi : Nat)
    (f : StoredFile) :
    (process_one_file config today fi f).2 =
      if validation_passes config f.data then 1 else 0 := by
  unfold process_one_file validation_passes
  rw [validate_file_eq f.data config fi]
  cases hv : validate_file f.data config 0 with
  | ok info =>
      cases hg : (process_with_gemini today fi f.file_name f.gemini).2 <;>
        simp [Except.map, hg]
  | error err => simp [Except.map]

/-- `successful_files` counts exactly the validation-passing files. -/
lemma run_files_count (config : UploadConfig) (today : Date) :
    ∀ (i : Nat) (files : List StoredFile),
      (run_files config today i files).2 =
        files.countP (fun f => validation_passes config f.data) := by
  intro i files
  induction files generalizing i with
  | nil => simp [run_files]
  | cons f rest ih =>
      simp only [run_files, List.countP_cons, ih (i + 1), process_one_file_snd]
      by_cases h : validation_passes config f.data <;> simp [h] <;> omega

/-- Structure of every published session trace: a run of mid-session
events (with the session-start event only ever in front) closed by exactly
one terminal event. -/
lemma session_trace_shape (config : UploadConfig) (today : Date) (sid : String)
    (items : List MultipartItem) :
    ∃ mid e, session_trace config today sid items = mid ++ [e] ∧
      e.isTerminal = true ∧ e.isUploadStarted = false ∧
      (∀ x ∈ mid, x.isTerminal = false) ∧
      (∀ x ∈ mid.drop 1, x.isUploadStarted = false) ∧
      (∀ x ∈ mid, x.carriesCountLimitCode = false) ∧
      e.carriesCountLimitCode = false := by
  unfold session_trace
  cases hc : collect_files items with
  | error err =>
      refine ⟨[], .processingError sid err.toMessage .internalServerError,
        ?_, rfl, rfl, by simp, by simp, by simp, rfl⟩
      simp [process_upload_with_events, hc]
  | ok files =>
      by_cases hemp : files.isEmpty
      · refine ⟨[], .processingError sid
          (UploadError.multipartError "No images provided").toMessage
          .internalServerError, ?_, rfl, rfl, by simp, by simp, by simp, rfl⟩
        simp [process_upload_with_events, hc, hemp]
      · refine ⟨ProcessingEvent.uploadStarted files.length sid ::
            ((run_files config today 0 files).1 ++
              [.allImagesValidated files.length (run_files config today 0 files).2
                (files.length - (run_files config today 0 files).2)]),
          .processingComplete sid files.length (run_files config today 0 files).2 0,
          ?_, rfl, rfl, ?_, ?_, ?_, rfl⟩
        · simp [process_upload_with_events, hc, hemp]
        · intro x hx
          simp only [List.mem_cons, List.mem_append, List.not_mem_nil,
            or_false] at hx
          rcases hx with rfl | h | rfl
          · rfl
          · have := run_files_mid config today 0 files x h
            simp only [ProcessingEvent.midEvent, Bool.and_eq_true,
              Bool.not_eq_true'] at this
            exact this.1.1
          · rfl
        · intro x hx
          simp only [List.drop_one, List.tail_cons, List.mem_append,
            List.mem_cons, List.not_mem_nil, or_false] at hx
          rcases hx with h | rfl
          · have := run_files_mid config today 0 files x h
            simp only [ProcessingEvent.midEvent, Bool.and_eq_true,
              Bool.not_eq_true'] at this
            exact this.1.2
          · rfl
        · intro x hx
          simp only [List.mem_cons, List.mem_append, List.not_mem_nil,
            or_false] at hx
          rcases hx with rfl | h | rfl
          · rfl
          · have := run_files_mid config today 0 files x h
            simp only [ProcessingEvent.midEvent, Bool.and_eq_true,
              Bool.not_eq_true'] at this
            exact this.2
          · rfl

/-- C1: For every accepted upload session (every run of
`process_upload_with_events` together with its spawning wrapper in
`upload_images_sse`), exactly one terminal event — `ProcessingComplete` on
normal completion or `ProcessingError` on an internal fault such as an
empty batch — is published for that session, and no further event for that
session is published after its terminal event: the published trace contains
exactly one terminal event and it is the last event. -/
theorem sessionPublishesExactlyOneTerminalEvent (config : UploadConfig)
    (today : Date) (sid : String) (items : List MultipartItem) :
    ((session_trace config today sid items).countP (fun e => e.isTerminal) = 1) ∧
    ∃ e, (session_trace config today sid items).getLast? = some e ∧
      e.isTerminal = true := by
  obtain ⟨mid, e, htr, hterm, _, hmid, _, _, _⟩ :=
    session_trace_shape config today sid items
  refine ⟨?_, e, ?_, hterm⟩
  · rw [htr, List.countP_append]
    have hz : mid.countP (fun e => e.isTerminal) = 0 :=
      List.countP_eq_zero.mpr (by intro a ha; simpa using hmid a ha)
    simp [hz, hterm]
  · rw [htr]
    simp

/-- C4: For every session, a subscriber that attaches to the event stream
after the `upload_started` event has been published (`1 ≤ k` events already
on the bus) but no later than the terminal event never observes
`upload_started`, always observes the session's terminal event, and its
stream terminates immediately after it (the terminal event is the last
element of the delivered stream). -/
theorem lateSubscriberMissesStartSeesTerminal (config : UploadConfig)
    (today : Date) (sid : String) (items : List MultipartItem) (k : Nat)
    (h1 : 1 ≤ k) (h2 : k < (session_trace config today sid items).length) :
    ((sse_stream ((session_trace config today sid items).drop k)).all
        (fun e => ! e.isUploadStarted) = true) ∧
    (∃ e, e.isTerminal = true ∧
      (session_trace config today sid items).getLast? = some e ∧
      (sse_stream ((session_trace config today sid items).drop k)).getLast? =
        some e) ∧
    ((sse_stream
        ((session_trace config today sid items).drop k)).dropLast.all
        (fun e => ! e.isTerminal) = true) := by
  obtain ⟨mid, e, htr, hterm, heUp, hmid, hmid1, _, _⟩ :=
    session_trace_shape config today sid items
  have hk : k ≤ mid.length := by
    rw [htr] at h2; simp at h2; omega
  have hdrop : (session_trace config today sid items).drop k =
      mid.drop k ++ [e] := by
    rw [htr, List.drop_append_of_le_length hk]
  have hsubmid : ∀ x ∈ mid.drop k, x ∈ mid.drop 1 := by
    intro x hx
    have : mid.drop k = (mid.drop 1).drop (k - 1) := by
      rw [List.drop_drop]; congr 1; omega
    rw [this] at hx
    exact List.drop_subset _ _ hx
  have hstream : sse_stream ((session_trace config today sid items).drop k) =
      mid.drop k ++ [e] := by
    rw [hdrop]
    exact sse_stream_of_mid_append
      (fun x hx => hmid x (List.drop_subset _ _ hx)) hterm []
  refine ⟨?_, ⟨e, hterm, ?_, ?_⟩, ?_⟩
  · rw [hstream, List.all_eq_true]
    intro x hx
    simp only [List.mem_append, List.mem_cons, List.not_mem_nil, or_false] at hx
    rcases hx with hx | rfl
    · simp [hmid1 x (hsubmid x hx)]
    · simp [heUp]
  · rw [htr]; simp
  · rw [hstream]; simp
  · rw [hstream, List.dropLast_concat, List.all_eq_true]
    intro x hx
    simp [hmid x (List.drop_subset _ _ hx)]

/-- Witness for `lateSubscriberMissesStartSeesTerminal`: a one-file session
with a subscriber attached after the first published event. -/
theorem lateSubscriberMissesStartSeesTerminal_witness :
    (1 ≤ 1 ∧
      1 < (session_trace ⟨2097152, 10⟩ ⟨2025, 10, 12⟩ "S"
        [MultipartItem.part ⟨"images", some "a.png", ⟨10, some "image/png", true⟩,
          ⟨none, GeminiCallResult.ok [], []⟩⟩]).length) ∧
    (((sse_stream ((session_trace ⟨2097152, 10⟩ ⟨2025, 10, 12⟩ "S"
        [MultipartItem.part ⟨"images", some "a.png", ⟨10, some "image/png", true⟩,
          ⟨none, GeminiCallResult.ok [], []⟩⟩]).drop 1)).all
        (fun e => ! e.isUploadStarted) = true) ∧
    (∃ e, e.isTerminal = true ∧
      (session_trace ⟨2097152, 10⟩ ⟨2025, 10, 12⟩ "S"
        [MultipartItem.part ⟨"images", some "a.png", ⟨10, some "image/png", true⟩,
          ⟨none, GeminiCallResult.ok [], []⟩⟩]).getLast? = some e ∧
      (sse_stream ((session_trace ⟨2097152, 10⟩ ⟨2025, 10, 12⟩ "S"
        [MultipartItem.part ⟨"images", some "a.png", ⟨10, some "image/png", true⟩,
          ⟨none, GeminiCallResult.ok [], []⟩⟩]).drop 1)).getLast? = some e) ∧
    ((sse_stream ((session_trace ⟨2097152, 10⟩ ⟨2025, 10, 12⟩ "S"
        [MultipartItem.part ⟨"images", some "a.png", ⟨10, some "image/png", true⟩,
          ⟨none, GeminiCallResult.ok [], []⟩⟩]).drop 1)).dropLast.all
        (fun e => ! e.isTerminal) = true)) :=
  ⟨⟨by decide, by decide⟩,
    lateSubscriberMissesStartSeesTerminal ⟨2097152, 10⟩ ⟨2025, 10, 12⟩ "S"
      [MultipartItem.part ⟨"images", some "a.png", ⟨10, some "image/png", true⟩,
        ⟨none, GeminiCallResult.ok [], []⟩⟩] 1 (by decide) (by decide)⟩

/-- C3 counterexample: the broadcast channel is created once per process
(`main.rs` line 74) and stored in `AppState` (`state.rs`), so two sessions
publish into the same bus and `upload_images_sse` subscribes to that shared
bus without filtering by session.  With session "B" fully published before
session "A" (a legal interleaving of the two spawned tasks), the stream
served to session "A"'s client delivers session "B"'s `upload_started` and
terminates at "B"'s terminal event, never delivering "A"'s own terminal
event even though it is published — refuting both that a session's stream
carries only its own events and that concurrent sessions' events are never
cross-delivered. -/
theorem eventBusIsPerSession_counterexample :
    (ProcessingEvent.uploadStarted 1 "B" ∈
      sse_stream
        (session_trace ⟨2097152, 10⟩ ⟨2025, 10, 12⟩ "B"
            [MultipartItem.part ⟨"images", some "b.png",
              ⟨10, some "image/png", true⟩, ⟨none, GeminiCallResult.ok [], []⟩⟩] ++
         session_trace ⟨2097152, 10⟩ ⟨2025, 10, 12⟩ "A"
            [MultipartItem.part ⟨"images", some "a.png",
              ⟨10, some "image/png", true⟩, ⟨none, GeminiCallResult.ok [], []⟩⟩])) ∧
    (ProcessingEvent.processingComplete "A" 1 1 0 ∉
      sse_stream
        (session_trace ⟨2097152, 10⟩ ⟨2025, 10, 12⟩ "B"
            [MultipartItem.part ⟨"images", some "b.png",
              ⟨10, some "image/png", true⟩, ⟨none, GeminiCallResult.ok [], []⟩⟩] ++
         session_trace ⟨2097152, 10⟩ ⟨2025, 10, 12⟩ "A"
            [MultipartItem.part ⟨"images", some "a.png",
              ⟨10, some "image/png", true⟩, ⟨none, GeminiCallResult.ok [], []⟩⟩])) ∧
    (ProcessingEvent.processingComplete "A" 1 1 0 ∈
      session_trace ⟨2097152, 10⟩ ⟨2025, 10, 12⟩ "A"
        [MultipartItem.part ⟨"images", some "a.png",
          ⟨10, some "image/png", true⟩, ⟨none, GeminiCallResult.ok [], []⟩⟩]) := by
  refine ⟨?_, ?_, ?_⟩ <;> decide

/-- C3 amended: the event bus is a single broadcast point per process,
shared by every session; each session's orchestrator is one producer onto
it.  A subscriber stream delivers a prefix of the published bus sequence
(never reordered, nothing invented) and terminates at the first terminal
event of any session: whatever is published on the shared bus after one
session's trace is never delivered to a subscriber that was attached from
that session's start. -/
theorem eventBusSharedAcrossSessions (config : UploadConfig) (today : Date)
    (sid : String) (items : List MultipartItem)
    (rest : List ProcessingEvent) :
    (∀ l : List ProcessingEvent, sse_stream l <+: l) ∧
    sse_stream (session_trace config today sid items ++ rest) =
      sse_stream (session_trace config today sid items) := by
  refine ⟨sse_stream_isPrefixOf, ?_⟩
  obtain ⟨mid, e, htr, hterm, _, hmid, _, _, _⟩ :=
    session_trace_shape config today sid items
  rw [htr, List.append_assoc, List.singleton_append,
    sse_stream_of_mid_append hmid hterm rest]
  have h2 := sse_stream_of_mid_append hmid hterm ([] : List ProcessingEvent)
  simpa using h2.symm

/-- `validation_passes` is exactly `validate_file` succeeding, at any
index. -/
lemma validation_passes_iff (config : UploadConfig) (data : ByteStream)
    (i : Nat) :
    validation_passes config data = true ↔
      ∃ info, validate_file data config i = .ok info := by
  unfold validation_passes
  rw [validate_file_eq data config i]
  cases validate_file data config 0 <;> simp [Except.map]

/-- A validated file whose Gemini phase fails still emits a
`GeminiProcessingError` for its index. -/
lemma process_one_file_gemini_error (config : UploadConfig) (today : Date)
    (fi : Nat) (f : StoredFile)
    (hv : validation_passes config f.data = true)
    (hg : gemini_phase_fails today fi f = true) :
    ∃ e ∈ (process_one_file config today fi f).1,
      e.isGeminiErrorFor fi = true := by
  obtain ⟨info, hinfo⟩ := (validation_passes_iff config f.data fi).mp hv
  unfold gemini_phase_fails at hg
  unfold process_one_file
  rw [hinfo]
  cases hge : (process_with_gemini today fi f.file_name f.gemini).2 with
  | ok u => rw [hge] at hg; simp at hg
  | error msg =>
      refine ⟨.geminiProcessingError fi ("Gemini processing failed: " ++ msg),
        by simp, by simp [ProcessingEvent.isGeminiErrorFor]⟩

/-- The trace of file `j` (at shifted index) is contained in the loop
trace. -/
lemma run_files_contains_file_trace (config : UploadConfig) (today : Date) :
    ∀ (i j : Nat) (files : List StoredFile) (f : StoredFile),
      files.get? j = some f →
      ∀ e ∈ (process_one_file config today (i + j) f).1,
        e ∈ (run_files config today i files).1 := by
  intro i j files
  induction files generalizing i j with
  | nil => intro f hf; simp at hf
  | cons g rest ih =>
      intro f hf e he
      cases j with
      | zero =>
          simp only [List.get?_cons_zero, Option.some.injEq] at hf
          subst hf
          simp only [Nat.add_zero] at he
          simp only [run_files, List.mem_append]
          exact Or.inl he
      | succ j =>
          simp only [List.get?_cons_succ] at hf
          simp only [run_files, List.mem_append]
          refine Or.inr (ih (i + 1) j f hf e ?_)
          have : i + 1 + j = i + (j + 1) := by omega
          rw [this]
          exact he

/-- C5: the `successful_files` count reported in `ProcessingComplete`
equals the number of files that passed validation, regardless of whether
their external-API extraction succeeded or failed; a validated file whose
extraction fails still has a `GeminiProcessingError` event emitted and is
still counted. -/
theorem successfulFilesCountsValidationPasses :
    (∀ (config : UploadConfig) (today : Date) (i : Nat)
        (files : List StoredFile),
      (run_files config today i files).2 =
        files.countP (fun f => validation_passes config f.data)) ∧
    (∀ (config : UploadConfig) (today : Date) (sid : String)
        (items : List MultipartItem) (files : List StoredFile),
      collect_files items = .ok files → files ≠ [] →
      (session_trace config today sid items).getLast? =
        some (.processingComplete sid files.length
          (files.countP (fun f => validation_passes config f.data)) 0)) ∧
    (∀ (config : UploadConfig) (today : Date) (i j : Nat)
        (files : List StoredFile) (f : StoredFile),
      files.get? j = some f →
      validation_passes config f.data = true →
      gemini_phase_fails today (i + j) f = true →
      ∃ e ∈ (run_files config today i files).1,
        e.isGeminiErrorFor (i + j) = true) := by
  refine ⟨fun config today i files => run_files_count config today i files,
    ?_, ?_⟩
  · intro config today sid items files hc hne
    have hemp : files.isEmpty = false := by
      cases files with
      | nil => exact absurd rfl hne
      | cons a l => rfl
    unfold session_trace
    simp only [process_upload_with_events, hc, hemp, Bool.false_eq_true,
      if_false]
    rw [run_files_count config today 0 files]
    have : [ProcessingEvent.uploadStarted files.length sid] ++
        (run_files config today 0 files).1 ++
        [ProcessingEvent.allImagesValidated files.length
          (files.countP (fun f => validation_passes config f.data))
          (files.length -
            (files.countP (fun f => validation_passes config f.data))),
         ProcessingEvent.processingComplete sid files.length
          (files.countP (fun f => validation_passes config f.data)) 0] =
        ([ProcessingEvent.uploadStarted files.length sid] ++
          (run_files config today 0 files).1 ++
          [ProcessingEvent.allImagesValidated files.length
            (files.countP (fun f => validation_passes config f.data))
            (files.length -
              (files.countP (fun f => validation_passes config f.data)))]) ++
        [ProcessingEvent.processingComplete sid files.length
          (files.countP (fun f => validation_passes config f.data)) 0] := by
      simp
    rw [this, List.getLast?_concat]
  · intro config today i j files f hf hv hg
    obtain ⟨e, he, hfor⟩ := process_one_file_gemini_error config today (i + j) f hv hg
    exact ⟨e, run_files_contains_file_trace config today i j files f hf e he, hfor⟩

/-- Witness for `successfulFilesCountsValidationPasses`: a two-file batch
whose second file's extraction call fails with a timeout — both files
counted, a `GeminiProcessingError` emitted for index 1. -/
theorem successfulFilesCountsValidationPasses_witness :
    (collect_files
        [MultipartItem.part ⟨"images", some "a.png",
            ⟨10, some "image/png", true⟩, ⟨none, GeminiCallResult.ok [], []⟩⟩,
         MultipartItem.part ⟨"images", some "b.png",
            ⟨11, some "image/jpeg", true⟩,
            ⟨none, GeminiCallResult.timeout 60, []⟩⟩] =
      .ok [⟨some "a.png", ⟨10, some "image/png", true⟩,
              ⟨none, GeminiCallResult.ok [], []⟩⟩,
           ⟨some "b.png", ⟨11, some "image/jpeg", true⟩,
              ⟨none, GeminiCallResult.timeout 60, []⟩⟩]) ∧
    (session_trace ⟨2097152, 10⟩ ⟨2025, 10, 12⟩ "S"
        [MultipartItem.part ⟨"images", some "a.png",
            ⟨10, some "image/png", true⟩, ⟨none, GeminiCallResult.ok [], []⟩⟩,
         MultipartItem.part ⟨"images", some "b.png",
            ⟨11, some "image/jpeg", true⟩,
            ⟨none, GeminiCallResult.timeout 60, []⟩⟩]).getLast? =
      some (.processingComplete "S" 2
        ([⟨some "a.png", ⟨10, some "image/png", true⟩,
            ⟨none, GeminiCallResult.ok [], []⟩⟩,
          (⟨some "b.png", ⟨11, some "image/jpeg", true⟩,
            ⟨none, GeminiCallResult.timeout 60, []⟩⟩ : StoredFile)].countP
          (fun f => validation_passes ⟨2097152, 10⟩ f.data)) 0) ∧
    ∃ e ∈ (run_files ⟨2097152, 10⟩ ⟨2025, 10, 12⟩ 0
        [⟨some "a.png", ⟨10, some "image/png", true⟩,
            ⟨none, GeminiCallResult.ok [], []⟩⟩,
         ⟨some "b.png", ⟨11, some "image/jpeg", true⟩,
            ⟨none, GeminiCallResult.timeout 60, []⟩⟩]).1,
      e.isGeminiErrorFor (0 + 1) = true :=
  ⟨by decide,
   successfulFilesCountsValidationPasses.2.1 ⟨2097152, 10⟩ ⟨2025, 10, 12⟩ "S"
     [MultipartItem.part ⟨"images", some "a.png",
         ⟨10, some "image/png", true⟩, ⟨none, GeminiCallResult.ok [], []⟩⟩,
      MultipartItem.part ⟨"images", some "b.png",
         ⟨11, some "image/jpeg", true⟩,
         ⟨none, GeminiCallResult.timeout 60, []⟩⟩]
     [⟨some "a.png", ⟨10, some "image/png", true⟩,
         ⟨none, GeminiCallResult.ok [], []⟩⟩,
      ⟨some "b.png", ⟨11, some "image/jpeg", true⟩,
         ⟨none, GeminiCallResult.timeout 60, []⟩⟩]
     (by decide) (by decide),
   successfulFilesCountsValidationPasses.2.2 ⟨2097152, 10⟩ ⟨2025, 10, 12⟩ 0 1
     [⟨some "a.png", ⟨10, some "image/png", true⟩,
         ⟨none, GeminiCallResult.ok [], []⟩⟩,
      ⟨some "b.png", ⟨11, some "image/jpeg", true⟩,
         ⟨none, GeminiCallResult.timeout 60, []⟩⟩]
     ⟨some "b.png", ⟨11, some "image/jpeg", true⟩,
         ⟨none, GeminiCallResult.timeout 60, []⟩⟩
     (by decide) (by decide) (by decide)⟩

/-- The collection loop keeps exactly the parts named `images`, in order. -/
lemma collect_files_parts (parts : List UploadPart) :
    collect_files (parts.map .part) =
      .ok ((parts.filter (fun p => p.name == "images")).map
        UploadPart.toStored) := by
  induction parts with
  | nil => simp [collect_files]
  | cons p rest ih =>
      simp only [List.map_cons, collect_files, ih]
      by_cases h : p.name = "images" <;>
        simp [h, bind, Except.bind, List.filter_cons]

/-- C10: multipart parts whose field name is not `images` are silently
skipped: the collection loop keeps only the `images` parts, dropping the
others changes nothing about the published session, the reported total
counts only `images` parts, and a request containing only non-`images`
parts is an empty batch terminated by a `ProcessingError`. -/
theorem nonImagesPartsSilentlySkipped :
    (∀ parts : List UploadPart,
      collect_files (parts.map .part) =
        .ok ((parts.filter (fun p => p.name == "images")).map
          UploadPart.toStored)) ∧
    (∀ (config : UploadConfig) (today : Date) (sid : String)
        (parts : List UploadPart),
      session_trace config today sid (parts.map .part) =
        session_trace config today sid
          ((parts.filter (fun p => p.name == "images")).map .part)) ∧
    (∀ (config : UploadConfig) (today : Date) (sid : String)
        (parts : List UploadPart),
      parts.filter (fun p => p.name == "images") ≠ [] →
      (session_trace config today sid (parts.map .part)).head? =
        some (.uploadStarted
          (parts.countP (fun p => p.name == "images")) sid)) ∧
    (∀ (config : UploadConfig) (today : Date) (sid : String)
        (parts : List UploadPart),
      parts.filter (fun p => p.name == "images") = [] →
      session_trace config today sid (parts.map .part) =
        [.processingError sid "Multipart parsing failed: No images provided"
          .internalServerError]) := by
  refine ⟨collect_files_parts, ?_, ?_, ?_⟩
  · intro config today sid parts
    have h1 := collect_files_parts parts
    have h2 := collect_files_parts (parts.filter (fun p => p.name == "images"))
    rw [List.filter_filter] at h2
    simp only [Bool.and_self] at h2
    unfold session_trace
    simp only [process_upload_with_events, h1, h2]
  · intro config today sid parts hne
    have h1 := collect_files_parts parts
    have hmapne :
        (parts.filter (fun p => p.name == "images")).map UploadPart.toStored
          ≠ [] := by simpa using hne
    have hemp : ((parts.filter (fun p => p.name == "images")).map
        UploadPart.toStored).isEmpty = false := by
      cases hh : (parts.filter (fun p => p.name == "images")).map
          UploadPart.toStored with
      | nil => exact absurd hh hmapne
      | cons a l => rfl
    unfold session_trace
    simp only [process_upload_with_events, h1, hemp, Bool.false_eq_true,
      if_false, List.length_map]
    rw [List.countP_eq_length_filter]
    simp
  · intro config today sid parts hfe
    have h1 := collect_files_parts parts
    rw [hfe] at h1
    unfold session_trace
    simp only [process_upload_with_events, h1, List.map_nil, List.isEmpty_nil,
      if_true]
    rfl

/-- Witness for `nonImagesPartsSilentlySkipped`: a request with a `file`
part and a `metadata` part around one `images` part, and a request with
only a `metadata` part. -/
theorem nonImagesPartsSilentlySkipped_witness :
    (session_trace ⟨2097152, 10⟩ ⟨2025, 10, 12⟩ "S"
        ([(⟨"file", some "x.bin", ⟨5, none, false⟩,
              ⟨none, GeminiCallResult.ok [], []⟩⟩ : UploadPart),
          ⟨"images", some "a.png", ⟨10, some "image/png", true⟩,
              ⟨none, GeminiCallResult.ok [], []⟩⟩,
          ⟨"metadata", none, ⟨3, none, false⟩,
              ⟨none, GeminiCallResult.ok [], []⟩⟩].map .part)).head? =
      some (.uploadStarted
        ([(⟨"file", some "x.bin", ⟨5, none, false⟩,
              ⟨none, GeminiCallResult.ok [], []⟩⟩ : UploadPart),
          ⟨"images", some "a.png", ⟨10, some "image/png", true⟩,
              ⟨none, GeminiCallResult.ok [], []⟩⟩,
          ⟨"metadata", none, ⟨3, none, false⟩,
              ⟨none, GeminiCallResult.ok [], []⟩⟩].countP
          (fun p => p.name == "images")) "S") ∧
    session_trace ⟨2097152, 10⟩ ⟨2025, 10, 12⟩ "S"
        ([(⟨"metadata", none, ⟨3, none, false⟩,
            ⟨none, GeminiCallResult.ok [], []⟩⟩ : UploadPart)].map .part) =
      [.processingError "S" "Multipart parsing failed: No images provided"
        .internalServerError] :=
  ⟨nonImagesPartsSilentlySkipped.2.2.1 ⟨2097152, 10⟩ ⟨2025, 10, 12⟩ "S"
      [⟨"file", some "x.bin", ⟨5, none, false⟩,
          ⟨none, GeminiCallResult.ok [], []⟩⟩,
       ⟨"images", some "a.png", ⟨10, some "image/png", true⟩,
          ⟨none, GeminiCallResult.ok [], []⟩⟩,
       ⟨"metadata", none, ⟨3, none, false⟩,
          ⟨none, GeminiCallResult.ok [], []⟩⟩] (by decide),
   nonImagesPartsSilentlySkipped.2.2.2 ⟨2097152, 10⟩ ⟨2025, 10, 12⟩ "S"
      [⟨"metadata", none, ⟨3, none, false⟩,
          ⟨none, GeminiCallResult.ok [], []⟩⟩] (by decide)⟩

/-- C6 counterexample: a stream that sniffs as `image/png` but fails to
decode makes `validate_file` return `InvalidImageFormat "Corrupted image"`,
which `map_error_to_code` maps to `UnsupportedFormat` with the message as
the detected format — not to the `CorruptedFile` code the claim names
(`CorruptedFile` is produced only for `MultipartError`). -/
theorem corruptedDecodeYieldsCorruptedFile_counterexample :
    validate_file ⟨10, some "image/png", false⟩ ⟨100, 10⟩ 0 =
      .error (.invalidImageFormat "Corrupted image") ∧
    map_error_to_code (.invalidImageFormat "Corrupted image") =
      .unsupportedFormat "Corrupted image" ∧
    map_error_to_code (.invalidImageFormat "Corrupted image") ≠
      ValidationErrorCode.corruptedFile := by
  refine ⟨?_, ?_, ?_⟩ <;> decide

/-- C6 amended: per-file validation checks size first (`FileSizeExceeded`),
then the magic-byte sniff (`UnsupportedFormat` via
`InvalidImageFormat "Unknown format"` / `"Not an image"`), then the full
decode; a stream that sniffs as an image but fails to decode yields
`InvalidImageFormat "Corrupted image"`, whose wire-level code is
`UnsupportedFormat{detected: "Corrupted image"}` rather than
`CorruptedFile`. -/
theorem validationCheckOrder :
    (∀ (data : ByteStream) (config : UploadConfig) (i : Nat),
      data.len > config.max_file_size_bytes →
      validate_file data config i =
        .error (.fileSizeExceeded data.len config.max_file_size_bytes)) ∧
    (∀ (data : ByteStream) (config : UploadConfig) (i : Nat),
      data.len ≤ config.max_file_size_bytes →
      data.sniffMime = none →
      validate_file data config i =
        .error (.invalidImageFormat "Unknown format")) ∧
    (∀ (data : ByteStream) (config : UploadConfig) (i : Nat) (mime : String),
      data.len ≤ config.max_file_size_bytes →
      data.sniffMime = some mime →
      starts_with mime "image/" = false →
      validate_file data config i =
        .error (.invalidImageFormat "Not an image")) ∧
    (∀ (data : ByteStream) (config : UploadConfig) (i : Nat) (mime : String),
      data.len ≤ config.max_file_size_bytes →
      data.sniffMime = some mime →
      starts_with mime "image/" = true →
      data.decodesOk = false →
      validate_file data config i =
        .error (.invalidImageFormat "Corrupted image") ∧
      map_error_to_code (.invalidImageFormat "Corrupted image") =
        .unsupportedFormat "Corrupted image") := by
  refine ⟨?_, ?_, ?_, ?_⟩
  · intro data config i h
    simp [validate_file, validate_file_size, h, bind, Except.bind]
  · intro data config i h hm
    simp [validate_file, validate_file_size, validate_image_format,
      Nat.not_lt.mpr h, hm, bind, Except.bind]
  · intro data config i mime h hm hpre
    simp [validate_file, validate_file_size, validate_image_format,
      Nat.not_lt.mpr h, hm, hpre, bind, Except.bind]
  · intro data config i mime h hm hpre hdec
    refine ⟨?_, by decide⟩
    simp [validate_file, validate_file_size, validate_image_format,
      Nat.not_lt.mpr h, hm, hpre, hdec, bind, Except.bind]

/-- Witness for `validationCheckOrder`: an oversized stream, an unknown
format, a `text/plain` sniff, and a non-decoding `image/png` sniff. -/
theorem validationCheckOrder_witness :
    (validate_file ⟨20, some "image/png", true⟩ ⟨10, 10⟩ 0 =
      .error (.fileSizeExceeded 20 10)) ∧
    (validate_file ⟨5, none, true⟩ ⟨10, 10⟩ 0 =
      .error (.invalidImageFormat "Unknown format")) ∧
    (validate_file ⟨5, some "text/plain", true⟩ ⟨10, 10⟩ 0 =
      .error (.invalidImageFormat "Not an image")) ∧
    (validate_file ⟨5, some "image/png", false⟩ ⟨10, 10⟩ 0 =
      .error (.invalidImageFormat "Corrupted image") ∧
     map_error_to_code (.invalidImageFormat "Corrupted image") =
      .unsupportedFormat "Corrupted image") :=
  ⟨validationCheckOrder.1 ⟨20, some "image/png", true⟩ ⟨10, 10⟩ 0 (by decide),
   validationCheckOrder.2.1 ⟨5, none, true⟩ ⟨10, 10⟩ 0 (by decide) rfl,
   validationCheckOrder.2.2.1 ⟨5, some "text/plain", true⟩ ⟨10, 10⟩ 0
     "text/plain" (by decide) rfl (by decide),
   validationCheckOrder.2.2.2 ⟨5, some "image/png", false⟩ ⟨10, 10⟩ 0
     "image/png" (by decide) rfl (by decide) rfl⟩

/-- Appending warning-entries via `add_error` never touches `results`. -/
lemma foldl_add_error_results (f : String → GSProcessingError) :
    ∀ (l : List String) (r : GeminiOCRResponse),
      (l.foldl (fun resp e => resp.add_error (f e)) r).results = r.results := by
  intro l
  induction l with
  | nil => intro r; rfl
  | cons a t ih => intro r; simpa [GeminiOCRResponse.add_error] using ih _

/-- Appending warning-entries via `add_error` adds one error each. -/
lemma foldl_add_error_errors (f : String → GSProcessingError) :
    ∀ (l : List String) (r : GeminiOCRResponse),
      (l.foldl (fun resp e => resp.add_error (f e)) r).errors.length =
        r.errors.length + l.length := by
  intro l
  induction l with
  | nil => intro r; simp
  | cons a t ih =>
      intro r
      simp only [List.foldl_cons, List.length_cons]
      rw [ih]
      simp [GeminiOCRResponse.add_error]
      omega

/-- C7 counterexample: a successfully extracted record whose total amount
is negative is rejected by `BillDataExtractor::validate_extracted_data`,
and in the pipeline (`process_with_gemini` → `extract_and_validate`) that
rejection becomes an extraction failure reported as
`GeminiProcessingError` — it is not kept as a successful extraction with a
warning. -/
theorem postExtractionValidationNonFatal_counterexample :
    extract_and_validate ⟨2025, 10, 12⟩
        ⟨none, none, some "INV-001", none, none, none, none, none,
         none, none, some (-100), none, none⟩ =
      .error (.invalidFormat "Total amount cannot be negative") ∧
    ((process_one_file ⟨2097152, 10⟩ ⟨2025, 10, 12⟩ 0
        ⟨some "a.png", ⟨10, some "image/png", true⟩,
         ⟨none, GeminiCallResult.ok
            [⟨none, none, some "INV-001", none, none, none, none, none,
              none, none, some (-100), none, none⟩], []⟩⟩).1.any
        (fun e => e.isGeminiErrorFor 0)) = true := by
  refine ⟨?_, ?_⟩ <;> decide

/-- C7 amended: only the response-parsing layer
(`GeminiService::parse_gemini_response` with
`GeminiService::validate_extracted_data`) treats the post-extraction checks
(future date, 10-year bound, non-negative amounts, VAT rate in [0,100],
VAT cross-check within 0.01) as non-fatal warnings — every violation is
appended as a warning entry and the extraction result is still returned.
The pipeline's `BillDataExtractor::validate_extracted_data`, however, is
fatal for its checks (future date, negative amounts, VAT rate range):
a record violating them is converted into an extraction failure.  The VAT
cross-check example (total=1000, rate=10, amount=200) is never fatal: the
bill-extractor layer has no cross-check and accepts it, while the parsing
layer flags exactly one warning. -/
theorem postExtractionValidationLayers :
    (∀ (today : Date) (bd : BillData),
      (parse_gemini_finish today bd).results =
        [{ image_index := 0, extracted_data := bd }]) ∧
    (∀ (today : Date) (bd : BillData),
      (parse_gemini_finish today bd).errors.length =
        (gs_validate_extracted_data today bd).length) ∧
    (validate_extracted_data ⟨2025, 10, 12⟩
        ⟨none, none, some "INV-001", none, none, none, none, none,
         none, none, some 1000, some 10, some 200⟩ = .ok ()) ∧
    (gs_validate_extracted_data ⟨2025, 10, 12⟩
        (⟨none, some "INV-001", none, none, none, none, none, none,
            some 1000, some 200, some 10, none, none⟩ : BillData) = ["Tax calculation inconsistency"]) ∧
    (∀ (today : Date) (bill : CreateBill) (t : ℚ),
      bill.total_amount = some t → t < 0 →
      ∃ e, validate_extracted_data today bill = .error e) := by
  refine ⟨?_, ?_, by decide, by decide, ?_⟩
  · intro today bd
    unfold parse_gemini_finish
    dsimp only
    simp only [GeminiOCRResponse.add_result]
    rw [foldl_add_error_results
      (fun e => GSProcessingError.mk3 .validationError
        ("Data validation warning: " ++ e) (some 0))]
    simp [GeminiOCRResponse.empty]
  · intro today bd
    unfold parse_gemini_finish
    dsimp only
    simp only [GeminiOCRResponse.add_result]
    rw [foldl_add_error_errors
      (fun e => GSProcessingError.mk3 .validationError
        ("Data validation warning: " ++ e) (some 0))]
    simp [GeminiOCRResponse.empty]
  · intro today bill t ht hneg
    unfold validate_extracted_data
    cases hd : bill.issued_date with
    | some d =>
        by_cases hlt : Date.ltD today d
        · exact ⟨.invalidFormat "Invoice date cannot be in the future",
            by simp [hd, hlt, bind, Except.bind]⟩
        · exact ⟨.invalidFormat "Total amount cannot be negative",
            by simp [hd, hlt, ht, hneg, bind, Except.bind]⟩
    | none =>
        exact ⟨.invalidFormat "Total amount cannot be negative",
          by simp [hd, ht, hneg, bind, Except.bind]⟩

/-- Witness for `postExtractionValidationLayers`: the warning layer keeps
the result for the cross-check-violating bill, and the extractor layer
hard-rejects a negative total. -/
theorem postExtractionValidationLayers_witness :
    ((parse_gemini_finish ⟨2025, 10, 12⟩
        (⟨none, some "INV-001", none, none, none, none, none, none,
            some 1000, some 200, some 10, none, none⟩ : BillData)).results =
      [{ image_index := 0,
         extracted_data :=
           (⟨none, some "INV-001", none, none, none, none, none, none,
            some 1000, some 200, some 10, none, none⟩ : BillData) }]) ∧
    ((some (-100 : ℚ) = some (-100 : ℚ)) ∧ ((-100 : ℚ) < 0)) ∧
    (∃ e, validate_extracted_data ⟨2025, 10, 12⟩
        ⟨none, none, some "INV-001", none, none, none, none, none,
         none, none, some (-100), none, none⟩ = .error e) :=
  ⟨postExtractionValidationLayers.1 ⟨2025, 10, 12⟩
      (⟨none, some "INV-001", none, none, none, none, none, none,
            some 1000, some 200, some 10, none, none⟩ : BillData),
   ⟨rfl, by norm_num⟩,
   postExtractionValidationLayers.2.2.2.2 ⟨2025, 10, 12⟩
      ⟨none, none, some "INV-001", none, none, none, none, none,
       none, none, some (-100), none, none⟩ (-100) rfl (by norm_num)⟩

/-- C9 counterexample: for `"1.000.000"` (several dots, no comma) the
source strips the dots as thousands separators and parses `1000000`,
whereas the spec's stated rules hit the "otherwise parse as-is" case and
fail (a decimal with two dots does not parse). -/
theorem amountNormalization_counterexample :
    parse_vietnamese_amount "1.000.000" = .ok (1000000 : ℚ) ∧
    spec_parse_amount "1.000.000" = none := by
  refine ⟨?_, ?_⟩ <;> decide

/-- C9 amended: normalization strips currency symbols and spaces; when the
string has both `.` and `,` — or more than one `.` even without a comma —
the dots are thousands separators (a single comma-part split supplies the
decimal part, `"1.000.000"` parses to `1000000`); a string with only `,`
uses it as the decimal separator; a string with neither comma nor repeated
dots parses as-is; percentages strip `%` and normalise `,` to `.`;
`"1.234.567,89"` → `1234567.89`, `"1234.56"` → `1234.56`, `"8,5%"` → `8.5`
exactly. -/
theorem amountNormalizationRules :
    (parse_vietnamese_amount "1.234.567,89" = .ok ((123456789 : ℚ) / 100)) ∧
    (parse_vietnamese_amount "1234.56" = .ok ((123456 : ℚ) / 100)) ∧
    (parse_vietnamese_percentage "8,5%" = .ok ((85 : ℚ) / 10)) ∧
    (parse_vietnamese_amount "1.000.000" = .ok (1000000 : ℚ)) ∧
    (∀ s : String, countChar '.' (clean_amount_chars s) ≤ 1 →
      (clean_amount_chars s).contains ',' = false →
      parse_vietnamese_amount s =
        match decimal_from_str (String.mk (clean_amount_chars s)) with
        | some q => .ok q
        | none =>
            .error (.numberParseError ("Unable to parse amount " ++ s))) ∧
    (∀ s : String, (clean_amount_chars s).contains ',' = true →
      (clean_amount_chars s).contains '.' = false →
      parse_vietnamese_amount s =
        match decimal_from_str
            (String.mk (replaceChar ',' '.' (clean_amount_chars s))) with
        | some q => .ok q
        | none =>
            .error (.numberParseError ("Unable to parse amount " ++ s))) := by
  refine ⟨by decide, by decide, by decide, by decide, ?_, ?_⟩
  · intro s h1 h2
    have hnm : ¬ ((clean_amount_chars s).contains ',' = true) := by
      intro hc
      rw [h2] at hc
      simp at hc
    have hnot : ¬ (countChar '.' (clean_amount_chars s) > 1 ∨
        ((clean_amount_chars s).contains '.' = true ∧
          (clean_amount_chars s).contains ',' = true)) := by
      intro hor
      rcases hor with hgt | ⟨_, hcm⟩
      · omega
      · rw [h2] at hcm
        simp at hcm
    have hnot2 : ¬ ((clean_amount_chars s).contains ',' = true ∧
        ¬ (clean_amount_chars s).contains '.' = true) := by
      intro hcon
      exact hnm hcon.1
    unfold parse_vietnamese_amount
    dsimp only
    rw [if_neg hnot, if_neg hnot2]
  · intro s h1 h2
    have hdotnot : '.' ∉ clean_amount_chars s := by simpa using h2
    have hcount : countChar '.' (clean_amount_chars s) = 0 := by
      simpa [countChar] using List.count_eq_zero.mpr hdotnot
    have hnot : ¬ (countChar '.' (clean_amount_chars s) > 1 ∨
        ((clean_amount_chars s).contains '.' = true ∧
          (clean_amount_chars s).contains ',' = true)) := by
      intro hor
      rcases hor with hgt | ⟨hcd, _⟩
      · omega
      · rw [h2] at hcd
        simp at hcd
    have hyes : ((clean_amount_chars s).contains ',' = true ∧
        ¬ (clean_amount_chars s).contains '.' = true) :=
      ⟨h1, by simpa using hdotnot⟩
    unfold parse_vietnamese_amount
    dsimp only
    rw [if_neg hnot, if_pos hyes]

/-- Witness for `amountNormalizationRules`: the as-is rule on `"1234.56"`
and the comma-decimal rule on `"8,5"`. -/
theorem amountNormalizationRules_witness :
    (countChar '.' (clean_amount_chars "1234.56") ≤ 1 ∧
      (clean_amount_chars "1234.56").contains ',' = false ∧
      parse_vietnamese_amount "1234.56" =
        match decimal_from_str (String.mk (clean_amount_chars "1234.56")) with
        | some q => .ok q
        | none =>
            .error (.numberParseError ("Unable to parse amount " ++
              "1234.56"))) ∧
    ((clean_amount_chars "8,5").contains ',' = true ∧
      (clean_amount_chars "8,5").contains '.' = false ∧
      parse_vietnamese_amount "8,5" =
        match decimal_from_str
            (String.mk (replaceChar ',' '.' (clean_amount_chars "8,5"))) with
        | some q => .ok q
        | none =>
            .error (.numberParseError ("Unable to parse amount " ++ "8,5"))) :=
  ⟨⟨by decide, by decide,
    amountNormalizationRules.2.2.2.2.1 "1234.56" (by decide) (by decide)⟩,
   ⟨by decide, by decide,
    amountNormalizationRules.2.2.2.2.2 "8,5" (by decide) (by decide)⟩⟩

/-- The attempt loop makes at most `fuel` further attempts. -/
lemma run_attempts_le {P : Type} (policy : RetryPolicy)
    (script : Nat → ApiAttemptOutcome P) :
    ∀ (r a : Nat), (run_attempts policy script a r).1 ≤ a + r := by
  intro r
  induction r with
  | zero => intro a; simp [run_attempts]
  | succ r ih =>
      intro a
      unfold run_attempts
      cases hsa : script a with
      | success p =>
          dsimp only
          omega
      | rateLimitExceeded ra =>
          dsimp only [ApiAttemptOutcome.isRetryable]
          split
          · have := ih (a + 1)
            dsimp only
            omega
          · dsimp only
            omega
      | serviceUnavailable =>
          dsimp only [ApiAttemptOutcome.isRetryable]
          split
          · have := ih (a + 1)
            dsimp only
            omega
          · dsimp only
            omega
      | timeout sec =>
          dsimp only [ApiAttemptOutcome.isRetryable]
          split
          · have := ih (a + 1)
            dsimp only
            omega
          · dsimp only
            omega
      | authenticationFailed =>
          dsimp only [ApiAttemptOutcome.isRetryable]
          split
          · next h => simp at h
          · dsimp only
            omega
      | parseFailure =>
          dsimp only [ApiAttemptOutcome.isRetryable]
          split
          · next h => simp at h
          · dsimp only
            omega

/-- C2 (modelled from the spec — the retrying client is repository code
absent from `src/`): the client makes at most 3 attempts in total; with
two rate-limited attempts and then a success it makes exactly 3 attempts,
sleeps exactly the two server-declared retry-after values, and returns the
success payload; without a declared retry-after the delays follow the
capped exponential backoff (1 s, 2 s, …, ceiling 30 s); on
`AuthenticationFailed` or `ParseFailure` it makes exactly 1 attempt with
zero retries. -/
theorem retryPolicyAttemptsAndDelays :
    (∀ (P : Type) (script : Nat → ApiAttemptOutcome P),
      (call_with_retries RetryPolicy.default script).1 ≤ 3) ∧
    (∀ (P : Type) (r1 r2 : Nat) (p : P),
      call_with_retries RetryPolicy.default
        (fun i => if i = 0 then .rateLimitExceeded (some r1)
          else if i = 1 then .rateLimitExceeded (some r2)
          else .success p) = (3, [r1, r2], some p)) ∧
    (∀ (P : Type) (p : P),
      call_with_retries RetryPolicy.default
        (fun i => if i < 2 then .serviceUnavailable else .success p) =
        (3, [1, 2], some p)) ∧
    (∀ (P : Type) (script : Nat → ApiAttemptOutcome P),
      script 0 = .authenticationFailed →
      call_with_retries RetryPolicy.default script = (1, [], none)) ∧
    (∀ (P : Type) (script : Nat → ApiAttemptOutcome P),
      script 0 = .parseFailure →
      call_with_retries RetryPolicy.default script = (1, [], none)) ∧
    (retry_delay RetryPolicy.default 6 none = 30) := by
  refine ⟨?_, ?_, ?_, ?_, ?_, by decide⟩
  · intro P script
    simpa using run_attempts_le RetryPolicy.default script 3 0
  · intro P r1 r2 p
    rfl
  · intro P p
    rfl
  · intro P script h
    simp [call_with_retries, run_attempts, h, ApiAttemptOutcome.isRetryable]
  · intro P script h
    simp [call_with_retries, run_attempts, h, ApiAttemptOutcome.isRetryable]

/-- Witness for `retryPolicyAttemptsAndDelays`: concrete scripts. -/
theorem retryPolicyAttemptsAndDelays_witness :
    (call_with_retries RetryPolicy.default
        (fun _ => (.authenticationFailed : ApiAttemptOutcome Nat)) =
      (1, [], none)) ∧
    (call_with_retries RetryPolicy.default
        (fun _ => (.parseFailure : ApiAttemptOutcome Nat)) =
      (1, [], none)) ∧
    (call_with_retries RetryPolicy.default
        (fun i => if i = 0 then .rateLimitExceeded (some 5)
          else if i = 1 then .rateLimitExceeded (some 7)
          else .success (42 : Nat)) = (3, [5, 7], some 42)) :=
  ⟨retryPolicyAttemptsAndDelays.2.2.2.1 Nat
      (fun _ => .authenticationFailed) rfl,
   retryPolicyAttemptsAndDelays.2.2.2.2.1 Nat
      (fun _ => .parseFailure) rfl,
   retryPolicyAttemptsAndDelays.2.1 Nat 5 7 42⟩

/-- The legacy collection loop rejects with `ImageCountExceeded` as soon as
the running count of valid `images` parts exceeds the maximum. -/
lemma upload_images_loop_replicate (config : UploadConfig) (p : UploadPart)
    (mime : String) (hname : p.name = "images")
    (hsize : ¬ p.data.len > config.max_file_size_bytes)
    (hfmt : validate_image_format p.data = .ok mime) :
    ∀ (m c : Nat), c ≤ config.max_image_count →
      c + m > config.max_image_count →
      upload_images_loop config c (List.replicate m (.part p)) =
        .error (.imageCountExceeded (config.max_image_count + 1)
          config.max_image_count) := by
  intro m
  induction m with
  | zero => intro c hc hgt; omega
  | succ m ih =>
      intro c hc hgt
      rw [List.replicate_succ]
      unfold upload_images_loop
      by_cases hover : c + 1 > config.max_image_count
      · have hceq : c + 1 = config.max_image_count + 1 := by omega
        simp [hname, hover, hceq]
      · have hc1 : c + 1 ≤ config.max_image_count := by omega
        have hgt1 : (c + 1) + m > config.max_image_count := by omega
        simp [hname, hover, validate_file_size, hsize, hfmt, bind,
          Except.bind, ih (c + 1) hc1 hgt1, Except.map]

/-- The legacy collection loop ignores non-`images` parts entirely. -/
lemma upload_images_loop_skip (config : UploadConfig) :
    ∀ (parts : List UploadPart) (c : Nat),
      (∀ q ∈ parts, q.name ≠ "images") →
      upload_images_loop config c (parts.map .part) =
        (if c = 0 then .error (.multipartError "No images provided")
         else .ok []) := by
  intro parts
  induction parts with
  | nil => intro c h; simp [upload_images_loop]
  | cons q rest ih =>
      intro c h
      have hq : q.name ≠ "images" := h q (by simp)
      simp only [List.map_cons]
      unfold upload_images_loop
      rw [if_neg hq]
      exact ih c (fun x hx => h x (by simp [hx]))

/-- C8 counterexample: the mounted upload endpoint (`/api/ocr` →
`upload_images_sse` → `process_upload_with_events`) performs no count
check at all: with `max_image_count = 1`, a batch of two `images` parts is
processed in full and completes with `ProcessingComplete` — no
`CountLimitExceeded` is ever produced and files are processed. -/
theorem uploadRejectsOverCount_counterexample :
    (session_trace ⟨2097152, 1⟩ ⟨2025, 10, 12⟩ "S"
        [.part ⟨"images", some "a.png", ⟨10, some "image/png", true⟩,
            ⟨none, GeminiCallResult.ok [], []⟩⟩,
         .part ⟨"images", some "b.png", ⟨11, some "image/png", true⟩,
            ⟨none, GeminiCallResult.ok [], []⟩⟩]).getLast? =
      some (.processingComplete "S" 2 2 0) ∧
    (session_trace ⟨2097152, 1⟩ ⟨2025, 10, 12⟩ "S"
        [.part ⟨"images", some "a.png", ⟨10, some "image/png", true⟩,
            ⟨none, GeminiCallResult.ok [], []⟩⟩,
         .part ⟨"images", some "b.png", ⟨11, some "image/png", true⟩,
            ⟨none, GeminiCallResult.ok [], []⟩⟩]).all
      (fun e => ! e.carriesCountLimitCode) = true := by
  refine ⟨?_, ?_⟩ <;> decide

/-- C8 amended: the streaming endpoint never produces `CountLimitExceeded`
(batches over the configured maximum are processed in full); only the
legacy, unmounted handler `upload_images` rejects with
`ImageCountExceeded` once the count of valid `images` parts exceeds the
maximum (the parts before the limit having already been validated), and a
request with no `images` parts is rejected with `MultipartError` there. -/
theorem countLimitOnlyInLegacyHandler :
    (∀ (config : UploadConfig) (today : Date) (sid : String)
        (items : List MultipartItem),
      (session_trace config today sid items).all
        (fun e => ! e.carriesCountLimitCode) = true) ∧
    (∀ (config : UploadConfig) (p : UploadPart) (mime : String) (m : Nat),
      p.name = "images" →
      ¬ p.data.len > config.max_file_size_bytes →
      validate_image_format p.data = .ok mime →
      m > config.max_image_count →
      upload_images config (List.replicate m (.part p)) =
        .error (.imageCountExceeded (config.max_image_count + 1)
          config.max_image_count)) ∧
    (∀ (config : UploadConfig) (parts : List UploadPart),
      (∀ q ∈ parts, q.name ≠ "images") →
      upload_images config (parts.map .part) =
        .error (.multipartError "No images provided")) := by
  refine ⟨?_, ?_, ?_⟩
  · intro config today sid items
    obtain ⟨mid, e, htr, _, _, _, _, hmidc, hec⟩ :=
      session_trace_shape config today sid items
    rw [htr, List.all_eq_true]
    intro x hx
    simp only [List.mem_append, List.mem_cons, List.not_mem_nil,
      or_false] at hx
    rcases hx with hx | rfl
    · simp [hmidc x hx]
    · simp [hec]
  · intro config p mime m hname hsize hfmt hm
    exact upload_images_loop_replicate config p mime hname hsize hfmt m 0
      (Nat.zero_le _) (by omega)
  · intro config parts h
    unfold upload_images
    rw [upload_images_loop_skip config parts 0 h]
    rfl

/-- Witness for `countLimitOnlyInLegacyHandler`: two valid `images` parts
with `max_image_count = 1`, and a lone `metadata` part. -/
theorem countLimitOnlyInLegacyHandler_witness :
    (upload_images ⟨2097152, 1⟩
        (List.replicate 2 (.part ⟨"images", some "a.png",
          ⟨10, some "image/png", true⟩, ⟨none, GeminiCallResult.ok [], []⟩⟩)) =
      .error (.imageCountExceeded 2 1)) ∧
    (upload_images ⟨2097152, 1⟩
        ([(⟨"metadata", none, ⟨3, none, false⟩,
            ⟨none, GeminiCallResult.ok [], []⟩⟩ : UploadPart)].map .part) =
      .error (.multipartError "No images provided")) :=
  ⟨countLimitOnlyInLegacyHandler.2.1 ⟨2097152, 1⟩
      ⟨"images", some "a.png", ⟨10, some "image/png", true⟩,
        ⟨none, GeminiCallResult.ok [], []⟩⟩ "image/png" 2 rfl (by decide)
      (by decide) (by decide),
   countLimitOnlyInLegacyHandler.2.2 ⟨2097152, 1⟩
      [⟨"metadata", none, ⟨3, none, false⟩,
        ⟨none, GeminiCallResult.ok [], []⟩⟩] (by decide)⟩

end OCRBill
